import Mathlib

/-!
# Ex5.1: two triangles drawn through GLFW and OpenGL

A shallow embedding of `src/Ex5.1/main.cpp`.

The program is a straight sequence of calls into GLFW, glad and OpenGL.  The
embedding threads an explicit `World` through every function of the source.
The world records, in order, every library call the program issues (the call
trace) together with the little library state the program depends on: the
close flag of the window, the window on which the resize callback is
registered, and a frame clock that indexes the inputs of the environment.

Whatever a library call answers is read from an `Env`: the result of creating
the window, of loading the driver bindings, the handles the driver hands out,
the compile and link status, the info logs, the state of the keyboard in each
frame and the events delivered by each poll.  Theorems quantify over every
`Env`.

Conventions of the translation:
* handles (`unsigned int`) and the window pointer are natural numbers, the
  null window is `none`;
* `int` values are `Int`;
* `float` literals are the rational numbers their decimal text denotes; the
  program never computes with them;
* text written to `std::cout` is one `Call.cout` entry per statement, with
  `std::endl` written as a newline;
* an array parameter is `Option (List Nat)`: `none` is the null pointer, and
  reading past the end of the list is undefined behaviour, rendered as the
  result `none`;
* the render loop may run forever, so it takes fuel; when the fuel runs out
  the run is reported as still spinning, together with the world reached.
-/

namespace Ex51

/-! ## Constants of the library headers

The numeric values are those of the GLFW 3 and OpenGL 3.3 headers, which are
not part of the sources; no theorem below depends on a value. -/

def GLFW_CONTEXT_VERSION_MAJOR : Nat := 0x00022002
def GLFW_CONTEXT_VERSION_MINOR : Nat := 0x00022003
def GLFW_OPENGL_PROFILE : Nat := 0x00022008
def GLFW_OPENGL_CORE_PROFILE : Nat := 0x00032001
def GLFW_KEY_ESCAPE : Nat := 256
def GLFW_PRESS : Int := 1
def GL_FALSE : Nat := 0
def GL_TRIANGLES : Nat := 0x0004
def GL_FLOAT : Nat := 0x1406
def GL_COLOR_BUFFER_BIT : Nat := 0x4000
def GL_ARRAY_BUFFER : Nat := 0x8892
def GL_STATIC_DRAW : Nat := 0x88E4
def GL_FRAGMENT_SHADER : Nat := 0x8B30
def GL_VERTEX_SHADER : Nat := 0x8B31
def GL_COMPILE_STATUS : Nat := 0x8B81
def GL_LINK_STATUS : Nat := 0x8B82

/-- The value of `sizeof(float)`: `float` is the 32-bit type OpenGL reads as
`GL_FLOAT`. -/
def sizeofFloat : Nat := 4

/-! ## Settings and literals of the source -/

def screenWidth : Nat := 800
def screenHeight : Nat := 600
def screenTitle : String := "OpenGL"

/-- The vertex shader text, up to the first NUL of the literal. -/
def vertexShaderSource : String :=
  "#version 330 core\nlayout (location = 0) in vec3 aPos;\nvoid main()\n\x7b\n\tgl_Position = vec4(aPos.x, aPos.y, aPos.z, 1.0);\n\x7d"

/-- The fragment shader text, up to the first NUL of the literal. -/
def fragmentShaderSource : String :=
  "#version 330 core\nout vec4 FragColor;\nvoid main()\n\x7b\n\tFragColor = vec4(1.0f, 0.5f, 0.2f, 1.0f);\n\x7d"

/-- The array `vertices` of `main`: six positions of three floats each. -/
def vertices : List ℚ :=
  [ -0.9, -0.8, 0.0,
     0.1, -0.1, 0.0,
    -0.4,  0.4, 0.0,
     0.0,  0.4, 0.0,
     0.8,  0.8, 0.0,
     0.4, -0.6, 0.0 ]

/-! ## Calls, events, environment, world -/

/-- One library call (or one write to `std::cout`) with the arguments the
program passes.  Out-parameters and results are not part of the entry. -/
inductive Call where
  | glfwInit
  | glfwWindowHint (hint value : Nat)
  | glfwCreateWindow (width height : Nat) (title : String)
  | glfwTerminate
  | glfwMakeContextCurrent (window : Nat)
  | glfwSetFramebufferSizeCallback (window : Nat)
  | gladLoadGLLoader
  | glfwWindowShouldClose (window : Nat)
  | glfwGetKey (window key : Nat)
  | glfwSetWindowShouldClose (window : Nat) (value : Bool)
  | glfwSwapBuffers (window : Nat)
  | glfwPollEvents
  | glViewport (x y width height : Int)
  | glCreateShader (shaderType : Nat)
  | glShaderSource (shader count : Nat) (source : String)
  | glCompileShader (shader : Nat)
  | glGetShaderiv (shader pname : Nat)
  | glGetShaderInfoLog (shader bufSize : Nat)
  | glCreateProgram
  | glAttachShader (program shader : Nat)
  | glLinkProgram (program : Nat)
  | glGetProgramiv (program pname : Nat)
  | glGetProgramInfoLog (program bufSize : Nat)
  | glDeleteShader (shader : Nat)
  | glGenVertexArrays (n : Nat)
  | glGenBuffers (n : Nat)
  | glBindVertexArray (array : Nat)
  | glBindBuffer (target buffer : Nat)
  | glBufferData (target size : Nat) (data : List ℚ) (usage : Nat)
  | glVertexAttribPointer (index size ty normalized stride offset : Nat)
  | glEnableVertexAttribArray (index : Nat)
  | glClearColor (red green blue alpha : ℚ)
  | glClear (mask : Nat)
  | glUseProgram (program : Nat)
  | glDrawArrays (mode : Nat) (first count : Int)
  | glDeleteVertexArrays (n array : Nat)
  | glDeleteBuffers (n buffer : Nat)
  | glDeleteProgram (program : Nat)
  | cout (text : List Char)
  deriving DecidableEq

/-- An event the windowing library delivers while it polls. -/
inductive Event where
  | framebufferSize (width height : Int)
  | windowClose
  | other
  deriving DecidableEq

/-- Everything the libraries answer. -/
structure Env where
  /-- Result of `glfwCreateWindow`; `none` is the null pointer. -/
  createWindow : Option Nat
  /-- Result of `gladLoadGLLoader`. -/
  gladLoad : Int
  /-- Handle returned by `glCreateShader` for a shader type. -/
  createShaderHandle : Nat → Nat
  /-- Value stored by `glGetShaderiv(shader, GL_COMPILE_STATUS, _)`. -/
  compileStatus : Nat → Int
  /-- The info log the driver holds for a shader. -/
  shaderInfoLog : Nat → List Char
  /-- Handle returned by `glCreateProgram`. -/
  createProgramHandle : Nat
  /-- Value stored by `glGetProgramiv(program, GL_LINK_STATUS, _)`. -/
  linkStatus : Nat → Int
  /-- The info log the driver holds for a program. -/
  programInfoLog : Nat → List Char
  /-- Name stored by `glGenVertexArrays(1, _)`. -/
  genVertexArray : Nat
  /-- Name stored by `glGenBuffers(1, _)`. -/
  genBuffer : Nat
  /-- Result of `glfwGetKey` for a key, in the frame with the given number. -/
  getKey : Nat → Nat → Int
  /-- Events delivered by the `glfwPollEvents` of the frame with the given
  number. -/
  events : Nat → List Event

/-- The call trace so far and the library state the program depends on. -/
structure World where
  /-- Calls issued so far, oldest first. -/
  trace : List Call
  /-- The close flag of the window. -/
  shouldClose : Bool
  /-- The window on which `framebuffer_size_callback` is registered. -/
  sizeCallback : Option Nat
  /-- Number of event polls completed: the number of the current frame. -/
  frame : Nat

/-- The world before `main` starts. -/
def World.start : World := ⟨[], false, none, 0⟩

/-- Record a call. -/
def emit (c : Call) (w : World) : World := { w with trace := w.trace ++ [c] }

/-! ## The library functions that answer or change state -/

def glfwCreateWindow (env : Env) (width height : Nat) (title : String) (w : World) :
    Option Nat × World :=
  (env.createWindow, emit (.glfwCreateWindow width height title) w)

def glfwSetFramebufferSizeCallback (window : Nat) (w : World) : World :=
  { emit (.glfwSetFramebufferSizeCallback window) w with sizeCallback := some window }

def gladLoadGLLoader (env : Env) (w : World) : Int × World :=
  (env.gladLoad, emit .gladLoadGLLoader w)

def glfwWindowShouldClose (window : Nat) (w : World) : Bool × World :=
  (w.shouldClose, emit (.glfwWindowShouldClose window) w)

def glfwGetKey (env : Env) (window key : Nat) (w : World) : Int × World :=
  (env.getKey w.frame key, emit (.glfwGetKey window key) w)

def glfwSetWindowShouldClose (window : Nat) (value : Bool) (w : World) : World :=
  { emit (.glfwSetWindowShouldClose window value) w with shouldClose := value }

def glCreateShader (env : Env) (shaderType : Nat) (w : World) : Nat × World :=
  (env.createShaderHandle shaderType, emit (.glCreateShader shaderType) w)

def glGetShaderiv (env : Env) (shader pname : Nat) (w : World) : Int × World :=
  (env.compileStatus shader, emit (.glGetShaderiv shader pname) w)

/-- The log is copied into a buffer of `bufSize` characters, the last of which
is the terminating NUL. -/
def glGetShaderInfoLog (env : Env) (shader bufSize : Nat) (w : World) : List Char × World :=
  ((env.shaderInfoLog shader).take (bufSize - 1), emit (.glGetShaderInfoLog shader bufSize) w)

def glCreateProgram (env : Env) (w : World) : Nat × World :=
  (env.createProgramHandle, emit .glCreateProgram w)

def glGetProgramiv (env : Env) (program pname : Nat) (w : World) : Int × World :=
  (env.linkStatus program, emit (.glGetProgramiv program pname) w)

/-- The log is copied into a buffer of `bufSize` characters, the last of which
is the terminating NUL. -/
def glGetProgramInfoLog (env : Env) (program bufSize : Nat) (w : World) : List Char × World :=
  ((env.programInfoLog program).take (bufSize - 1), emit (.glGetProgramInfoLog program bufSize) w)

def glGenVertexArrays (env : Env) (n : Nat) (w : World) : Nat × World :=
  (env.genVertexArray, emit (.glGenVertexArrays n) w)

def glGenBuffers (env : Env) (n : Nat) (w : World) : Nat × World :=
  (env.genBuffer, emit (.glGenBuffers n) w)

/-! ## The functions of the source -/

/-- Source lines 131-134. -/
def framebuffer_size_callback (_window : Nat) (width height : Int) (w : World) : World :=
  emit (.glViewport 0 0 width height) w

/-- Delivery of one event: a resize runs the registered callback, a close
request sets the close flag. -/
def deliver (e : Event) (w : World) : World :=
  match e with
  | .framebufferSize width height =>
    match w.sizeCallback with
    | some window => framebuffer_size_callback window width height w
    | none => w
  | .windowClose => { w with shouldClose := true }
  | .other => w

/-- The library delivers the pending events of the current frame, in order,
and the frame clock advances. -/
def glfwPollEvents (env : Env) (w : World) : World :=
  let w1 := emit .glfwPollEvents w
  let w2 := (env.events w.frame).foldl (fun acc e => deliver e acc) w1
  { w2 with frame := w2.frame + 1 }

/-- Source lines 136-142. -/
def processInput (env : Env) (window : Nat) (w : World) : World :=
  let (key, w) := glfwGetKey env window GLFW_KEY_ESCAPE w
  if key = GLFW_PRESS then
    glfwSetWindowShouldClose window true w
  else
    w

/-- The header both shader kinds are reported under. -/
def compileHeader : List Char := "ERROR::SHADER::VERTEX::COMPILATION_FAILED\n".toList

def linkHeader : List Char := "ERROR::SHADER::PROGRAM::LINKING_FAILED\n".toList

/-- Source lines 144-160. -/
def createShader (env : Env) (shaderType : Nat) (shaderSource : String) (w : World) :
    Nat × World :=
  let (shader, w) := glCreateShader env shaderType w
  let w := emit (.glShaderSource shader 1 shaderSource) w
  let w := emit (.glCompileShader shader) w
  let (success, w) := glGetShaderiv env shader GL_COMPILE_STATUS w
  if success = 0 then
    let (infoLog, w) := glGetShaderInfoLog env shader 512 w
    let w := emit (.cout (compileHeader ++ infoLog ++ ['\n'])) w
    (shader, w)
  else
    (shader, w)

/-- The loop `for (int i = 0; i < count; ++i) glAttachShader(program, shaders[i])`
from index `i` with `n` iterations left. -/
def attachLoop (shaderProgram : Nat) (shaders : List Nat) (i : Nat) :
    Nat → World → Option World
  | 0, w => some w
  | n + 1, w =>
    match shaders[i]? with
    | none => none
    | some s => attachLoop shaderProgram shaders (i + 1) n (emit (.glAttachShader shaderProgram s) w)

/-- Source lines 162-186. -/
def createShaderProgram (env : Env) (shaders : Option (List Nat)) (count : Int) (w : World) :
    Option (Nat × World) :=
  let (shaderProgram, w) := glCreateProgram env w
  match shaders with
  | some arr =>
    if count > 0 then
      match attachLoop shaderProgram arr 0 count.toNat w with
      | none => none
      | some w =>
        let w := emit (.glLinkProgram shaderProgram) w
        let (success, w) := glGetProgramiv env shaderProgram GL_LINK_STATUS w
        if success = 0 then
          let (infoLog, w) := glGetProgramInfoLog env shaderProgram 512 w
          let w := emit (.cout (linkHeader ++ infoLog ++ ['\n'])) w
          some (shaderProgram, w)
        else
          some (shaderProgram, w)
    else
      some (shaderProgram, w)
  | none => some (shaderProgram, w)

/-- The loop `for (int i = 0; i < count; ++i) glDeleteShader(shaders[i])` from
index `i` with `n` iterations left. -/
def deleteLoop (shaders : List Nat) (i : Nat) : Nat → World → Option World
  | 0, w => some w
  | n + 1, w =>
    match shaders[i]? with
    | none => none
    | some s => deleteLoop shaders (i + 1) n (emit (.glDeleteShader s) w)

/-- Source lines 188-197. -/
def deleteShaders (shaders : Option (List Nat)) (count : Int) (w : World) : Option World :=
  match shaders with
  | some arr =>
    if count > 0 then deleteLoop arr 0 count.toNat w else some w
  | none => some w

/-- The body of the render loop, source lines 105-119. -/
def frameBody (env : Env) (window shaderProgram VAO : Nat) (w : World) : World :=
  let w := processInput env window w
  let w := emit (.glClearColor 0.2 0.3 0.3 1.0) w
  let w := emit (.glClear GL_COLOR_BUFFER_BIT) w
  let w := emit (.glUseProgram shaderProgram) w
  let w := emit (.glBindVertexArray VAO) w
  let w := emit (.glDrawArrays GL_TRIANGLES 0 6) w
  let w := emit (.glfwSwapBuffers window) w
  glfwPollEvents env w

/-- The render loop, source lines 103-120.  `.ok w` is the world on leaving
the loop; `.error w` is the world reached when the fuel is spent with the
loop still running. -/
def renderLoop (env : Env) (window shaderProgram VAO : Nat) : Nat → World → Except World World
  | 0, w => .error w
  | fuel + 1, w =>
    let (close, w) := glfwWindowShouldClose window w
    if close then
      .ok w
    else
      renderLoop env window shaderProgram VAO fuel (frameBody env window shaderProgram VAO w)

/-- What a run of `main` amounts to. -/
inductive Run where
  /-- `main` returned the status, leaving the world. -/
  | exited (status : Int) (w : World)
  /-- The fuel was spent inside the render loop; the world so far. -/
  | spinning (w : World)
  /-- An array was read past its end. -/
  | undefined

/-- Source lines 34-129. -/
def main (env : Env) (fuel : Nat) : Run :=
  let w := emit .glfwInit World.start
  let w := emit (.glfwWindowHint GLFW_CONTEXT_VERSION_MAJOR 3) w
  let w := emit (.glfwWindowHint GLFW_CONTEXT_VERSION_MINOR 3) w
  let w := emit (.glfwWindowHint GLFW_OPENGL_PROFILE GLFW_OPENGL_CORE_PROFILE) w
  let (window, w) := glfwCreateWindow env screenWidth screenHeight screenTitle w
  match window with
  | none =>
    let w := emit (.cout "Failed to create GLFW window\n".toList) w
    let w := emit .glfwTerminate w
    .exited (-1) w
  | some window =>
    let w := emit (.glfwMakeContextCurrent window) w
    let w := glfwSetFramebufferSizeCallback window w
    let (loaded, w) := gladLoadGLLoader env w
    if loaded = 0 then
      let w := emit (.cout "Failed to initialize GLAD\n".toList) w
      .exited (-1) w
    else
      let (vertexShader, w) := createShader env GL_VERTEX_SHADER vertexShaderSource w
      let (fragmentShader, w) := createShader env GL_FRAGMENT_SHADER fragmentShaderSource w
      let shaders := [vertexShader, fragmentShader]
      match createShaderProgram env (some shaders) 2 w with
      | none => .undefined
      | some (shaderProgram, w) =>
        -- the call is `deleteShaders(shaders)`: the default argument `count = 0` applies
        match deleteShaders (some shaders) 0 w with
        | none => .undefined
        | some w =>
          let (VAO, w) := glGenVertexArrays env 1 w
          let (VBO, w) := glGenBuffers env 1 w
          let w := emit (.glBindVertexArray VAO) w
          let w := emit (.glBindBuffer GL_ARRAY_BUFFER VBO) w
          let w := emit (.glBufferData GL_ARRAY_BUFFER (vertices.length * sizeofFloat) vertices
            GL_STATIC_DRAW) w
          let w := emit (.glVertexAttribPointer 0 3 GL_FLOAT GL_FALSE (3 * sizeofFloat) 0) w
          let w := emit (.glEnableVertexAttribArray 0) w
          let w := emit (.glBindBuffer GL_ARRAY_BUFFER 0) w
          let w := emit (.glBindVertexArray 0) w
          match renderLoop env window shaderProgram VAO fuel w with
          | .error w => .spinning w
          | .ok w =>
            let w := emit (.glDeleteVertexArrays 1 VAO) w
            let w := emit (.glDeleteBuffers 1 VBO) w
            let w := emit (.glDeleteProgram shaderProgram) w
            let w := emit .glfwTerminate w
            .exited 0 w

/-- The calls of a run; none are kept for an undefined run. -/
def Run.trace : Run → List Call
  | .exited _ w => w.trace
  | .spinning w => w.trace
  | .undefined => []

/-! ## Classes of calls -/

/-- The OpenGL calls, that is the calls served by the GPU driver. -/
def Call.isGpu : Call → Bool
  | .glViewport .. => true
  | .glCreateShader .. => true
  | .glShaderSource .. => true
  | .glCompileShader .. => true
  | .glGetShaderiv .. => true
  | .glGetShaderInfoLog .. => true
  | .glCreateProgram => true
  | .glAttachShader .. => true
  | .glLinkProgram .. => true
  | .glGetProgramiv .. => true
  | .glGetProgramInfoLog .. => true
  | .glDeleteShader .. => true
  | .glGenVertexArrays .. => true
  | .glGenBuffers .. => true
  | .glBindVertexArray .. => true
  | .glBindBuffer .. => true
  | .glBufferData .. => true
  | .glVertexAttribPointer .. => true
  | .glEnableVertexAttribArray .. => true
  | .glClearColor .. => true
  | .glClear .. => true
  | .glUseProgram .. => true
  | .glDrawArrays .. => true
  | .glDeleteVertexArrays .. => true
  | .glDeleteBuffers .. => true
  | .glDeleteProgram .. => true
  | _ => false

def Call.isDraw : Call → Bool
  | .glDrawArrays .. => true
  | _ => false

def Call.isClear : Call → Bool
  | .glClear .. => true
  | _ => false

def Call.isPoll : Call → Bool
  | .glfwPollEvents => true
  | _ => false

def Call.isBufferData : Call → Bool
  | .glBufferData .. => true
  | _ => false

def Call.isAttribPointer : Call → Bool
  | .glVertexAttribPointer .. => true
  | _ => false

def Call.isDeleteShader : Call → Bool
  | .glDeleteShader .. => true
  | _ => false

def Call.isCreateShader : Call → Bool
  | .glCreateShader .. => true
  | _ => false

def Call.isLink : Call → Bool
  | .glLinkProgram .. => true
  | _ => false

def Call.isCout : Call → Bool
  | .cout .. => true
  | _ => false

def Call.isLoopTest : Call → Bool
  | .glfwWindowShouldClose .. => true
  | _ => false

def Call.isSwap : Call → Bool
  | .glfwSwapBuffers .. => true
  | _ => false

def Call.isTerminate : Call → Bool
  | .glfwTerminate => true
  | _ => false

/-- The calls that release a vertex array, a buffer or a program. -/
def Call.isRelease : Call → Bool
  | .glDeleteVertexArrays .. => true
  | .glDeleteBuffers .. => true
  | .glDeleteProgram .. => true
  | _ => false

/-! ## Closed forms of the call traces -/

/-- Escape is reported as pressed in frame `k`. -/
def escapePressed (env : Env) (k : Nat) : Bool :=
  decide (env.getKey k GLFW_KEY_ESCAPE = GLFW_PRESS)

/-- The poll of frame `k` delivers a close request. -/
def closeRequested (env : Env) (k : Nat) : Bool :=
  decide (Event.windowClose ∈ env.events k)

/-- The close flag gets set during frame `k`. -/
def closes (env : Env) (k : Nat) : Bool := escapePressed env k || closeRequested env k

/-- The viewport calls the resize events of one poll give rise to. -/
def viewportCalls : List Event → List Call
  | [] => []
  | .framebufferSize width height :: es => .glViewport 0 0 width height :: viewportCalls es
  | .windowClose :: es => viewportCalls es
  | .other :: es => viewportCalls es

/-- Calls of `processInput` in frame `k`. -/
def inputCalls (env : Env) (window k : Nat) : List Call :=
  .glfwGetKey window GLFW_KEY_ESCAPE ::
    (if escapePressed env k then [.glfwSetWindowShouldClose window true] else [])

/-- Calls of one frame between `processInput` and the delivery of events. -/
def renderCalls (window shaderProgram VAO : Nat) : List Call :=
  [.glClearColor 0.2 0.3 0.3 1.0, .glClear GL_COLOR_BUFFER_BIT, .glUseProgram shaderProgram,
   .glBindVertexArray VAO, .glDrawArrays GL_TRIANGLES 0 6, .glfwSwapBuffers window,
   .glfwPollEvents]

/-- Calls of the loop body in frame `k`. -/
def bodyCalls (env : Env) (window shaderProgram VAO k : Nat) : List Call :=
  inputCalls env window k ++ renderCalls window shaderProgram VAO ++ viewportCalls (env.events k)

/-- Calls of `m` whole iterations starting with frame `start`, each led by the
loop test. -/
def framesFrom (env : Env) (window shaderProgram VAO : Nat) (start : Nat) : Nat → List Call
  | 0 => []
  | m + 1 => .glfwWindowShouldClose window :: bodyCalls env window shaderProgram VAO start ++
      framesFrom env window shaderProgram VAO (start + 1) m

/-- Calls of `createShader`. -/
def createShaderCalls (env : Env) (shaderType : Nat) (shaderSource : String) : List Call :=
  [.glCreateShader shaderType,
   .glShaderSource (env.createShaderHandle shaderType) 1 shaderSource,
   .glCompileShader (env.createShaderHandle shaderType),
   .glGetShaderiv (env.createShaderHandle shaderType) GL_COMPILE_STATUS] ++
  (if env.compileStatus (env.createShaderHandle shaderType) = 0 then
    [.glGetShaderInfoLog (env.createShaderHandle shaderType) 512,
     .cout (compileHeader ++ (env.shaderInfoLog (env.createShaderHandle shaderType)).take 511
        ++ ['\n'])]
   else [])

/-- Calls that report a failed link. -/
def linkReport (env : Env) (program : Nat) : List Call :=
  if env.linkStatus program = 0 then
    [.glGetProgramInfoLog program 512,
     .cout (linkHeader ++ (env.programInfoLog program).take 511 ++ ['\n'])]
  else []

/-- Calls of `main` up to the loader, when the window `window` is created. -/
def bootCalls (window : Nat) : List Call :=
  [.glfwInit,
   .glfwWindowHint GLFW_CONTEXT_VERSION_MAJOR 3,
   .glfwWindowHint GLFW_CONTEXT_VERSION_MINOR 3,
   .glfwWindowHint GLFW_OPENGL_PROFILE GLFW_OPENGL_CORE_PROFILE,
   .glfwCreateWindow screenWidth screenHeight screenTitle,
   .glfwMakeContextCurrent window,
   .glfwSetFramebufferSizeCallback window,
   .gladLoadGLLoader]

/-- Calls of `main` that build the program: source lines 59-69. -/
def buildCalls (env : Env) : List Call :=
  createShaderCalls env GL_VERTEX_SHADER vertexShaderSource ++
  createShaderCalls env GL_FRAGMENT_SHADER fragmentShaderSource ++
  [.glCreateProgram,
   .glAttachShader env.createProgramHandle (env.createShaderHandle GL_VERTEX_SHADER),
   .glAttachShader env.createProgramHandle (env.createShaderHandle GL_FRAGMENT_SHADER),
   .glLinkProgram env.createProgramHandle,
   .glGetProgramiv env.createProgramHandle GL_LINK_STATUS] ++
  linkReport env env.createProgramHandle

/-- Calls of `main` that upload the geometry: source lines 85-99. -/
def uploadCalls (env : Env) : List Call :=
  [.glGenVertexArrays 1,
   .glGenBuffers 1,
   .glBindVertexArray env.genVertexArray,
   .glBindBuffer GL_ARRAY_BUFFER env.genBuffer,
   .glBufferData GL_ARRAY_BUFFER 72 vertices GL_STATIC_DRAW,
   .glVertexAttribPointer 0 3 GL_FLOAT GL_FALSE 12 0,
   .glEnableVertexAttribArray 0,
   .glBindBuffer GL_ARRAY_BUFFER 0,
   .glBindVertexArray 0]

/-- Calls of `main` after the loop: source lines 123-127. -/
def shutdownCalls (env : Env) : List Call :=
  [.glDeleteVertexArrays 1 env.genVertexArray,
   .glDeleteBuffers 1 env.genBuffer,
   .glDeleteProgram env.createProgramHandle,
   .glfwTerminate]

/-- The world `main` enters the render loop with. -/
def loopEntry (env : Env) (window : Nat) : World :=
  ⟨bootCalls window ++ buildCalls env ++ uploadCalls env, false, some window, 0⟩

/-! ## What a draw reads from the buffer -/

/-- Byte offsets, in the bound buffer, of the floats `glDrawArrays(_, first, count)`
reads through an attribute of `size` floats per vertex laid out with `stride`
bytes between vertices from byte `offset`, in the order read. -/
def fetchedOffsets (size stride offset first count : Nat) : List Nat :=
  (List.range count).flatMap fun v =>
    (List.range size).map fun c => offset + (first + v) * stride + c * sizeofFloat

/-- Position number `i` of the array `vertices`. -/
def vertexAt (i : Nat) : ℚ × ℚ × ℚ :=
  (vertices.getD (3 * i) 0, vertices.getD (3 * i + 1) 0, vertices.getD (3 * i + 2) 0)

/-- The six positions the draw call consumes. -/
def positions : List (ℚ × ℚ × ℚ) := (List.range 6).map vertexAt

/-! ## The GPU state a draw depends on

The calls of a trace are replayed on the part of the OpenGL state that decides
what a draw reads: the bound vertex array and array buffer, the data stores of
the buffers, and the layout and enable flag of each attribute. -/

/-- What the GPU holds for one attribute of a vertex array. -/
structure Attrib where
  enabled : Bool
  /-- Components per vertex. -/
  size : Nat
  /-- Component type. -/
  ty : Nat
  /-- Bytes between consecutive vertices; 0 stands for tightly packed. -/
  stride : Nat
  /-- Byte offset of the first component in the buffer. -/
  offset : Nat
  /-- The buffer that was bound to `GL_ARRAY_BUFFER` when the layout was set. -/
  buffer : Nat

/-- An attribute nobody has set up. -/
def Attrib.unset : Attrib := ⟨false, 4, GL_FLOAT, 0, 0, 0⟩

/-- One float read by a draw: the buffer, the byte offset, and the value
found, `none` when the read is misaligned or leaves the data store. -/
structure Fetch where
  buffer : Nat
  offset : Nat
  value : Option ℚ
  deriving DecidableEq

/-- The part of the OpenGL state a draw depends on, and the reads of the draws
so far.  The name 0 stands for no object. -/
structure Gpu where
  /-- The bound vertex array. -/
  boundArray : Nat
  /-- The buffer bound to `GL_ARRAY_BUFFER`. -/
  boundBuffer : Nat
  /-- Data store of each buffer: size in bytes and floats held. -/
  stores : Nat → Option (Nat × List ℚ)
  /-- Attribute state, by vertex array and attribute index. -/
  attribs : Nat → Nat → Attrib
  /-- For each draw call so far, oldest first, the floats it read. -/
  draws : List (List Fetch)

/-- The state of a fresh context. -/
def Gpu.start : Gpu := ⟨0, 0, fun _ => none, fun _ _ => Attrib.unset, []⟩

/-- The number of attribute indices of a vertex array (`GL_MAX_VERTEX_ATTRIBS`
is at least 16). -/
def maxVertexAttribs : Nat := 16

/-- The float at byte `offset` of a buffer. -/
def Gpu.readFloat (g : Gpu) (buffer offset : Nat) : Option ℚ :=
  match g.stores buffer with
  | none => none
  | some (size, data) =>
    if offset % sizeofFloat = 0 ∧ offset + sizeofFloat ≤ size then data[offset / sizeofFloat]?
    else none

/-- The reads a draw of vertices `first .. first + count - 1` makes through one
attribute. -/
def Gpu.fetchAttrib (g : Gpu) (a : Attrib) (first count : Nat) : List Fetch :=
  if a.enabled = true ∧ a.ty = GL_FLOAT then
    (fetchedOffsets a.size (if a.stride = 0 then a.size * sizeofFloat else a.stride) a.offset
      first count).map fun off => ⟨a.buffer, off, g.readFloat a.buffer off⟩
  else []

/-- The reads of `glDrawArrays(_, first, count)`: through every enabled
attribute of the bound vertex array, none without a vertex array. -/
def Gpu.fetch (g : Gpu) (first count : Int) : List Fetch :=
  if g.boundArray = 0 ∨ first < 0 ∨ count < 0 then []
  else
    (List.range maxVertexAttribs).flatMap fun i =>
      g.fetchAttrib (g.attribs g.boundArray i) first.toNat count.toNat

/-- The effect of one call on the GPU state. -/
def Gpu.step (g : Gpu) : Call → Gpu
  | .glBindVertexArray array => { g with boundArray := array }
  | .glBindBuffer target buffer =>
    if target = GL_ARRAY_BUFFER then { g with boundBuffer := buffer } else g
  | .glBufferData target size data _ =>
    if target = GL_ARRAY_BUFFER ∧ g.boundBuffer ≠ 0 then
      { g with stores := fun b => if b = g.boundBuffer then some (size, data) else g.stores b }
    else g
  | .glVertexAttribPointer index size ty _ stride offset =>
    if g.boundArray ≠ 0 then
      { g with attribs := fun v i =>
          if v = g.boundArray ∧ i = index then
            ⟨(g.attribs v i).enabled, size, ty, stride, offset, g.boundBuffer⟩
          else g.attribs v i }
    else g
  | .glEnableVertexAttribArray index =>
    if g.boundArray ≠ 0 then
      { g with attribs := fun v i =>
          if v = g.boundArray ∧ i = index then { g.attribs v i with enabled := true }
          else g.attribs v i }
    else g
  | .glDrawArrays _ first count => { g with draws := g.draws ++ [g.fetch first count] }
  | .glDeleteBuffers _ buffer =>
    { g with stores := fun b => if b = buffer then none else g.stores b }
  | .glDeleteVertexArrays _ array =>
    { g with attribs := fun v i => if v = array then Attrib.unset else g.attribs v i }
  | _ => g

/-- The GPU state after a sequence of calls. -/
def Gpu.replay (g : Gpu) (calls : List Call) : Gpu := calls.foldl Gpu.step g

/-- The reads expected of one draw of the program: vertex `v` takes its three
coordinates from bytes `12 v`, `12 v + 4` and `12 v + 8` of the buffer. -/
def expectedReads (buffer : Nat) : List Fetch :=
  (List.range 6).flatMap fun v =>
    [⟨buffer, 12 * v, some (vertexAt v).1⟩,
     ⟨buffer, 12 * v + 4, some (vertexAt v).2.1⟩,
     ⟨buffer, 12 * v + 8, some (vertexAt v).2.2⟩]

/-- What the upload leaves in the GPU: the data store of the buffer and the
layout of attribute 0 of the vertex array, every other attribute of that
array disabled. -/
def Uploaded (env : Env) (g : Gpu) : Prop :=
  g.stores env.genBuffer = some (72, vertices) ∧
  g.attribs env.genVertexArray 0 = ⟨true, 3, GL_FLOAT, 12, 0, env.genBuffer⟩ ∧
  ∀ i, i ≠ 0 → (g.attribs env.genVertexArray i).enabled = false

/-! ## A sample environment

The window is created, the loader succeeds, the fragment shader fails to
compile, the first poll delivers a resize to 640 by 480, and Escape is
pressed in the second frame. -/

def demoEnv : Env where
  createWindow := some 1
  gladLoad := 1
  createShaderHandle := fun t => if t = GL_VERTEX_SHADER then 10 else 11
  compileStatus := fun s => if s = 11 then 0 else 1
  shaderInfoLog := fun _ => "bad".toList
  createProgramHandle := 20
  linkStatus := fun _ => 1
  programInfoLog := fun _ => []
  genVertexArray := 30
  genBuffer := 31
  getKey := fun k _ => if k = 1 then 1 else 0
  events := fun k => if k = 0 then [.framebufferSize 640 480] else []

/-- As `demoEnv`, but no window can be created. -/
def noWindowEnv : Env := { demoEnv with createWindow := none }

/-- As `demoEnv`, but the loader fails. -/
def noLoaderEnv : Env := { demoEnv with gladLoad := 0 }

/-! ## Lemmas on the loop and on `main` -/

theorem deliver_foldl (window : Nat) (es : List Event) (w : World)
    (hcb : w.sizeCallback = some window) :
    es.foldl (fun acc e => deliver e acc) w =
      ⟨w.trace ++ viewportCalls es, w.shouldClose || decide (Event.windowClose ∈ es),
        some window, w.frame⟩ := by
  induction es generalizing w with
  | nil => cases w; simp_all [viewportCalls]
  | cons e es ih =>
    cases e with
    | framebufferSize width height =>
      rw [List.foldl_cons, ih _ (by simp [deliver, hcb, framebuffer_size_callback, emit])]
      simp [deliver, hcb, framebuffer_size_callback, emit, viewportCalls]
    | windowClose =>
      rw [List.foldl_cons, ih _ (by simp [deliver, hcb])]
      simp [deliver, viewportCalls]
    | other =>
      rw [List.foldl_cons, ih _ (by simp [deliver, hcb])]
      simp [deliver, viewportCalls]

theorem frameBody_eq (env : Env) (window shaderProgram VAO : Nat) (w : World)
    (hcb : w.sizeCallback = some window) :
    frameBody env window shaderProgram VAO w =
      ⟨w.trace ++ bodyCalls env window shaderProgram VAO w.frame,
        w.shouldClose || closes env w.frame, some window, w.frame + 1⟩ := by
  unfold frameBody glfwPollEvents
  simp only []
  rw [deliver_foldl window]
  · by_cases h : env.getKey w.frame GLFW_KEY_ESCAPE = GLFW_PRESS
    · simp [processInput, glfwGetKey, glfwSetWindowShouldClose, emit, h, bodyCalls, inputCalls,
        renderCalls, escapePressed, closes, closeRequested]
    · simp [processInput, glfwGetKey, glfwSetWindowShouldClose, emit, h, bodyCalls, inputCalls,
        renderCalls, escapePressed, closes, closeRequested]
  · by_cases h : env.getKey w.frame GLFW_KEY_ESCAPE = GLFW_PRESS <;>
      simp [processInput, glfwGetKey, glfwSetWindowShouldClose, emit, h, hcb]

theorem renderLoop_spin (env : Env) (window shaderProgram VAO : Nat) (m : Nat) (w : World)
    (hflag : w.shouldClose = false) (hcb : w.sizeCallback = some window)
    (hopen : ∀ k, k < m → closes env (w.frame + k) = false) :
    renderLoop env window shaderProgram VAO m w =
      .error ⟨w.trace ++ framesFrom env window shaderProgram VAO w.frame m, false,
        some window, w.frame + m⟩ := by
  induction m generalizing w with
  | zero => cases w; simp_all [renderLoop, framesFrom]
  | succ m ih =>
    have h0 : closes env w.frame = false := by simpa using hopen 0 (Nat.succ_pos m)
    have hb := frameBody_eq env window shaderProgram VAO (emit (.glfwWindowShouldClose window) w) hcb
    simp only [renderLoop, glfwWindowShouldClose, hflag, Bool.false_eq_true, if_false]
    rw [hb, ih]
    · simp [emit, framesFrom, Nat.add_assoc, Nat.add_comm 1 m, hflag, h0]
    · simp [emit, hflag, h0]
    · rfl
    · intro k hk
      have := hopen (k + 1) (Nat.succ_lt_succ hk)
      simpa [emit, Nat.add_assoc, Nat.add_comm 1 k] using this

theorem renderLoop_exit (env : Env) (window shaderProgram VAO : Nat) (n fuel : Nat) (w : World)
    (hflag : w.shouldClose = false) (hcb : w.sizeCallback = some window)
    (hopen : ∀ k, k < n → closes env (w.frame + k) = false)
    (hclose : closes env (w.frame + n) = true) (hfuel : n + 2 ≤ fuel) :
    renderLoop env window shaderProgram VAO fuel w =
      .ok ⟨w.trace ++ framesFrom env window shaderProgram VAO w.frame (n + 1) ++
          [.glfwWindowShouldClose window], true, some window, w.frame + (n + 1)⟩ := by
  induction n generalizing w fuel with
  | zero =>
    obtain ⟨f, rfl⟩ : ∃ f, fuel = f + 2 := ⟨fuel - 2, by omega⟩
    have hb := frameBody_eq env window shaderProgram VAO (emit (.glfwWindowShouldClose window) w) hcb
    have h0 : closes env w.frame = true := by simpa using hclose
    simp only [renderLoop, glfwWindowShouldClose, hflag, Bool.false_eq_true, if_false]
    rw [hb]
    simp [emit, framesFrom, hflag, h0]
  | succ n ih =>
    obtain ⟨f, rfl⟩ : ∃ f, fuel = f + 1 := ⟨fuel - 1, by omega⟩
    have h0 : closes env w.frame = false := by simpa using hopen 0 (Nat.succ_pos n)
    have hb := frameBody_eq env window shaderProgram VAO (emit (.glfwWindowShouldClose window) w) hcb
    simp only [renderLoop, glfwWindowShouldClose, hflag, Bool.false_eq_true, if_false]
    rw [hb, ih]
    · simp [emit, framesFrom, Nat.add_assoc, Nat.add_comm 1 n, hflag, h0, Nat.add_comm 1 (n+1)]
    · simp [emit, hflag, h0]
    · rfl
    · intro k hk
      have := hopen (k + 1) (Nat.succ_lt_succ hk)
      simpa [emit, Nat.add_assoc, Nat.add_comm 1 k] using this
    · have := hclose
      simpa [emit, Nat.add_assoc, Nat.add_comm 1 n] using this
    · omega

theorem createShader_eq (env : Env) (shaderType : Nat) (shaderSource : String) (w : World) :
    createShader env shaderType shaderSource w =
      (env.createShaderHandle shaderType,
        { w with trace := w.trace ++ createShaderCalls env shaderType shaderSource }) := by
  by_cases h : env.compileStatus (env.createShaderHandle shaderType) = 0 <;>
    simp [createShader, glCreateShader, glGetShaderiv, glGetShaderInfoLog, emit, h,
      createShaderCalls]

theorem main_loaded (env : Env) (fuel window : Nat) (hwin : env.createWindow = some window)
    (hglad : env.gladLoad ≠ 0) :
    main env fuel =
      match renderLoop env window env.createProgramHandle env.genVertexArray fuel
          (loopEntry env window) with
      | .error w => .spinning w
      | .ok w => .exited 0 { w with trace := w.trace ++ shutdownCalls env } := by
  unfold main
  simp only [glfwCreateWindow, hwin, gladLoadGLLoader, hglad, if_false, createShader_eq]
  by_cases hl : env.linkStatus env.createProgramHandle = 0
  · simp [createShaderProgram, attachLoop, deleteShaders, glCreateProgram, glGetProgramiv,
      glGetProgramInfoLog, glGenVertexArrays, glGenBuffers, emit, hl,
      glfwSetFramebufferSizeCallback, World.start, loopEntry, bootCalls, buildCalls, uploadCalls,
      linkReport, shutdownCalls, vertices, sizeofFloat]
  · simp [createShaderProgram, attachLoop, deleteShaders, glCreateProgram, glGetProgramiv,
      glGetProgramInfoLog, glGenVertexArrays, glGenBuffers, emit, hl,
      glfwSetFramebufferSizeCallback, World.start, loopEntry, bootCalls, buildCalls, uploadCalls,
      linkReport, shutdownCalls, vertices, sizeofFloat]

theorem renderLoop_shape (env : Env) (window shaderProgram VAO : Nat) (fuel : Nat) (w : World)
    (hcb : w.sizeCallback = some window) :
    ∃ m w', m ≤ fuel ∧ (w.shouldClose = false → 0 < fuel → 0 < m) ∧
      ((renderLoop env window shaderProgram VAO fuel w = .error w' ∧
          w'.trace = w.trace ++ framesFrom env window shaderProgram VAO w.frame m) ∨
       (renderLoop env window shaderProgram VAO fuel w = .ok w' ∧
          w'.trace = w.trace ++ framesFrom env window shaderProgram VAO w.frame m ++
            [.glfwWindowShouldClose window])) := by
  induction fuel generalizing w with
  | zero => exact ⟨0, w, le_refl _, fun _ h => h, Or.inl ⟨rfl, by simp [framesFrom]⟩⟩
  | succ fuel ih =>
    cases hflag : w.shouldClose with
    | true =>
      refine ⟨0, emit (.glfwWindowShouldClose window) w, Nat.zero_le _,
        fun h => by simp at h, Or.inr ⟨?_, ?_⟩⟩
      · simp [renderLoop, glfwWindowShouldClose, hflag]
      · simp [emit, framesFrom]
    | false =>
      have hb := frameBody_eq env window shaderProgram VAO
        (emit (.glfwWindowShouldClose window) w) hcb
      obtain ⟨m, w', hm, -, h⟩ := ih (frameBody env window shaderProgram VAO
        (emit (.glfwWindowShouldClose window) w)) (by rw [hb])
      refine ⟨m + 1, w', Nat.succ_le_succ hm, fun _ _ => Nat.succ_pos m, ?_⟩
      simp only [renderLoop, glfwWindowShouldClose, hflag, Bool.false_eq_true, if_false]
      rw [hb] at h ⊢
      simpa [emit, framesFrom, List.append_assoc] using h

theorem main_shape (env : Env) (fuel window : Nat) (hwin : env.createWindow = some window)
    (hglad : env.gladLoad ≠ 0) :
    ∃ m tail, m ≤ fuel ∧ (0 < fuel → 0 < m) ∧
      (main env fuel).trace = (loopEntry env window).trace ++
        framesFrom env window env.createProgramHandle env.genVertexArray 0 m ++ tail ∧
      (((∃ w, main env fuel = .spinning w) ∧ tail = []) ∨
       ((∃ w, main env fuel = .exited 0 w) ∧
          tail = .glfwWindowShouldClose window :: shutdownCalls env)) := by
  obtain ⟨m, w', hm, hpos, h⟩ := renderLoop_shape env window env.createProgramHandle
    env.genVertexArray fuel (loopEntry env window) rfl
  rw [main_loaded env fuel window hwin hglad]
  rcases h with ⟨h1, h2⟩ | ⟨h1, h2⟩
  · exact ⟨m, [], hm, hpos rfl, by simp [h1, Run.trace, h2]; rfl, Or.inl ⟨⟨w', by simp [h1]⟩, rfl⟩⟩
  · refine ⟨m, _, hm, hpos rfl, ?_, Or.inr ⟨⟨_, by simp [h1]; rfl⟩, rfl⟩⟩
    simp [h1, Run.trace, h2]
    rfl

theorem main_exit (env : Env) (window n fuel : Nat) (hwin : env.createWindow = some window)
    (hglad : env.gladLoad ≠ 0) (hopen : ∀ k, k < n → closes env k = false)
    (hclose : closes env n = true) (hfuel : n + 2 ≤ fuel) :
    main env fuel = .exited 0
      ⟨(loopEntry env window).trace ++
          framesFrom env window env.createProgramHandle env.genVertexArray 0 (n + 1) ++
          [.glfwWindowShouldClose window] ++ shutdownCalls env,
        true, some window, n + 1⟩ := by
  rw [main_loaded env fuel window hwin hglad,
    renderLoop_exit env window env.createProgramHandle env.genVertexArray n fuel
      (loopEntry env window) rfl rfl (by simpa [loopEntry] using hopen)
      (by simpa [loopEntry] using hclose) hfuel]
  simp [loopEntry]

theorem main_spin (env : Env) (window n : Nat) (hwin : env.createWindow = some window)
    (hglad : env.gladLoad ≠ 0) (hopen : ∀ k, k < n → closes env k = false) :
    main env n = .spinning
      ⟨(loopEntry env window).trace ++
          framesFrom env window env.createProgramHandle env.genVertexArray 0 n,
        false, some window, n⟩ := by
  rw [main_loaded env n window hwin hglad,
    renderLoop_spin env window env.createProgramHandle env.genVertexArray n
      (loopEntry env window) rfl rfl (by simpa [loopEntry] using hopen)]
  simp [loopEntry]

/-- Counting in the trace `main` enters the loop with: the reports of failed
builds aside, it is a fixed list of calls. -/
theorem countP_loopEntry (P : Call → Bool) (env : Env) (window : Nat)
    (hc : ∀ t, P (.cout t) = false)
    (hs : ∀ s b, P (.glGetShaderInfoLog s b) = false)
    (hp : ∀ s b, P (.glGetProgramInfoLog s b) = false) :
    (loopEntry env window).trace.countP P =
      (bootCalls window).countP P +
      ([.glCreateShader GL_VERTEX_SHADER,
        .glShaderSource (env.createShaderHandle GL_VERTEX_SHADER) 1 vertexShaderSource,
        .glCompileShader (env.createShaderHandle GL_VERTEX_SHADER),
        .glGetShaderiv (env.createShaderHandle GL_VERTEX_SHADER) GL_COMPILE_STATUS,
        .glCreateShader GL_FRAGMENT_SHADER,
        .glShaderSource (env.createShaderHandle GL_FRAGMENT_SHADER) 1 fragmentShaderSource,
        .glCompileShader (env.createShaderHandle GL_FRAGMENT_SHADER),
        .glGetShaderiv (env.createShaderHandle GL_FRAGMENT_SHADER) GL_COMPILE_STATUS,
        .glCreateProgram,
        .glAttachShader env.createProgramHandle (env.createShaderHandle GL_VERTEX_SHADER),
        .glAttachShader env.createProgramHandle (env.createShaderHandle GL_FRAGMENT_SHADER),
        .glLinkProgram env.createProgramHandle,
        .glGetProgramiv env.createProgramHandle GL_LINK_STATUS] : List Call).countP P +
      (uploadCalls env).countP P := by
  by_cases h1 : env.compileStatus (env.createShaderHandle GL_VERTEX_SHADER) = 0 <;>
  by_cases h2 : env.compileStatus (env.createShaderHandle GL_FRAGMENT_SHADER) = 0 <;>
  by_cases h3 : env.linkStatus env.createProgramHandle = 0 <;>
    simp [loopEntry, buildCalls, createShaderCalls, linkReport, h1, h2, h3, hc, hs, hp,
      List.countP_cons, List.countP_append] <;> omega

theorem countP_viewportCalls (P : Call → Bool)
    (hv : ∀ x y width height, P (.glViewport x y width height) = false) (es : List Event) :
    (viewportCalls es).countP P = 0 := by
  induction es with
  | nil => simp [viewportCalls]
  | cons e es ih => cases e <;> simp [viewportCalls, ih, hv]

theorem countP_framesFrom (P : Call → Bool) (env : Env) (window shaderProgram VAO : Nat)
    (hv : ∀ x y width height, P (.glViewport x y width height) = false)
    (ht : P (.glfwWindowShouldClose window) = false)
    (hk : ∀ key, P (.glfwGetKey window key) = false)
    (hs : ∀ b, P (.glfwSetWindowShouldClose window b) = false) (start m : Nat) :
    (framesFrom env window shaderProgram VAO start m).countP P =
      m * (renderCalls window shaderProgram VAO).countP P := by
  induction m generalizing start with
  | zero => simp [framesFrom]
  | succ m ih =>
    have hin : (inputCalls env window start).countP P = 0 := by
      unfold inputCalls
      split <;> simp [hk, hs]
    simp [framesFrom, bodyCalls, ih, ht, hin, countP_viewportCalls P hv, Nat.succ_mul,
      Nat.add_comm]

theorem framesFrom_add (env : Env) (window shaderProgram VAO : Nat) (start a b : Nat) :
    framesFrom env window shaderProgram VAO start (a + b) =
      framesFrom env window shaderProgram VAO start a ++
        framesFrom env window shaderProgram VAO (start + a) b := by
  induction a generalizing start with
  | zero => simp [framesFrom]
  | succ a ih =>
    rw [Nat.add_right_comm]
    simp [framesFrom, ih, Nat.add_assoc, Nat.add_comm 1 a]

theorem attachLoop_eq (shaderProgram : Nat) (shaders : List Nat) (n i : Nat) (w : World)
    (hlen : i + n ≤ shaders.length) :
    attachLoop shaderProgram shaders i n w =
      some { w with trace := w.trace ++
        ((shaders.drop i).take n).map (.glAttachShader shaderProgram) } := by
  induction n generalizing i w with
  | zero => simp [attachLoop]
  | succ n ih =>
    have hi : i < shaders.length := by omega
    rw [attachLoop, List.getElem?_eq_getElem hi]
    simp only []
    rw [ih (i + 1) _ (by omega), List.drop_eq_getElem_cons hi]
    simp only [emit, List.take_succ_cons, List.map_cons, List.append_assoc, List.singleton_append]

theorem attachLoop_none (shaderProgram : Nat) (shaders : List Nat) (n i : Nat) (w : World)
    (hi : i ≤ shaders.length) (hlen : shaders.length < i + n) :
    attachLoop shaderProgram shaders i n w = none := by
  induction n generalizing i w with
  | zero => omega
  | succ n ih =>
    rw [attachLoop]
    by_cases hi' : i < shaders.length
    · rw [List.getElem?_eq_getElem hi']
      exact ih (i + 1) _ (by omega) (by omega)
    · rw [List.getElem?_eq_none (by omega)]

theorem filter_viewportCalls (P : Call → Bool)
    (hv : ∀ x y width height, P (.glViewport x y width height) = false) (es : List Event) :
    (viewportCalls es).filter P = [] := by
  induction es with
  | nil => simp [viewportCalls]
  | cons e es ih => cases e <;> simp [viewportCalls, ih, hv]

theorem filter_framesFrom (P : Call → Bool) (env : Env) (window shaderProgram VAO : Nat)
    (hv : ∀ x y width height, P (.glViewport x y width height) = false)
    (ht : P (.glfwWindowShouldClose window) = false)
    (hk : ∀ key, P (.glfwGetKey window key) = false)
    (hs : ∀ b, P (.glfwSetWindowShouldClose window b) = false) (x : Call)
    (hx : (renderCalls window shaderProgram VAO).filter P = [x]) (start m : Nat) :
    (framesFrom env window shaderProgram VAO start m).filter P = List.replicate m x := by
  induction m generalizing start with
  | zero => simp [framesFrom]
  | succ m ih =>
    have hin : (inputCalls env window start).filter P = [] := by
      unfold inputCalls
      split <;> simp [hk, hs]
    simp only [framesFrom, bodyCalls, List.filter_cons, ht, List.filter_append, hin, hx,
      filter_viewportCalls P hv, ih, List.replicate_succ]
    simp

theorem filter_framesFrom_nil (P : Call → Bool) (env : Env) (window shaderProgram VAO : Nat)
    (hv : ∀ x y width height, P (.glViewport x y width height) = false)
    (ht : P (.glfwWindowShouldClose window) = false)
    (hk : ∀ key, P (.glfwGetKey window key) = false)
    (hs : ∀ b, P (.glfwSetWindowShouldClose window b) = false)
    (hx : (renderCalls window shaderProgram VAO).filter P = []) (start m : Nat) :
    (framesFrom env window shaderProgram VAO start m).filter P = [] := by
  induction m generalizing start with
  | zero => simp [framesFrom]
  | succ m ih =>
    have hin : (inputCalls env window start).filter P = [] := by
      unfold inputCalls
      split <;> simp [hk, hs]
    simp only [framesFrom, bodyCalls, List.filter_cons, ht, List.filter_append, hin, hx,
      filter_viewportCalls P hv, ih]
    simp

theorem filter_createShaderCalls (P : Call → Bool) (env : Env) (shaderType : Nat)
    (shaderSource : String) (hc : ∀ t, P (.cout t) = false)
    (hs : ∀ s b, P (.glGetShaderInfoLog s b) = false) :
    (createShaderCalls env shaderType shaderSource).filter P =
      ([.glCreateShader shaderType,
        .glShaderSource (env.createShaderHandle shaderType) 1 shaderSource,
        .glCompileShader (env.createShaderHandle shaderType),
        .glGetShaderiv (env.createShaderHandle shaderType) GL_COMPILE_STATUS] :
          List Call).filter P := by
  have hrep : ∀ (c : Prop) [Decidable c] (s b : Nat) (t : List Char),
      (if c then [Call.glGetShaderInfoLog s b, Call.cout t] else []).filter P = [] := by
    intro c _ s b t
    split <;> simp [List.filter_cons, hs, hc]
  unfold createShaderCalls
  rw [List.filter_append, hrep, List.append_nil]

theorem filter_linkReport (P : Call → Bool) (env : Env) (program : Nat)
    (hc : ∀ t, P (.cout t) = false)
    (hp : ∀ s b, P (.glGetProgramInfoLog s b) = false) :
    (linkReport env program).filter P = [] := by
  unfold linkReport
  split <;> simp [List.filter_cons, hp, hc]

theorem filter_loopEntry (P : Call → Bool) (env : Env) (window : Nat)
    (hc : ∀ t, P (.cout t) = false)
    (hs : ∀ s b, P (.glGetShaderInfoLog s b) = false)
    (hp : ∀ s b, P (.glGetProgramInfoLog s b) = false) :
    (loopEntry env window).trace.filter P =
      (bootCalls window).filter P ++
      (([.glCreateShader GL_VERTEX_SHADER,
        .glShaderSource (env.createShaderHandle GL_VERTEX_SHADER) 1 vertexShaderSource,
        .glCompileShader (env.createShaderHandle GL_VERTEX_SHADER),
        .glGetShaderiv (env.createShaderHandle GL_VERTEX_SHADER) GL_COMPILE_STATUS] :
          List Call).filter P ++
       ([.glCreateShader GL_FRAGMENT_SHADER,
        .glShaderSource (env.createShaderHandle GL_FRAGMENT_SHADER) 1 fragmentShaderSource,
        .glCompileShader (env.createShaderHandle GL_FRAGMENT_SHADER),
        .glGetShaderiv (env.createShaderHandle GL_FRAGMENT_SHADER) GL_COMPILE_STATUS] :
          List Call).filter P ++
       ([.glCreateProgram,
        .glAttachShader env.createProgramHandle (env.createShaderHandle GL_VERTEX_SHADER),
        .glAttachShader env.createProgramHandle (env.createShaderHandle GL_FRAGMENT_SHADER),
        .glLinkProgram env.createProgramHandle,
        .glGetProgramiv env.createProgramHandle GL_LINK_STATUS] : List Call).filter P) ++
      (uploadCalls env).filter P := by
  simp only [loopEntry, buildCalls, List.filter_append, filter_createShaderCalls P env _ _ hc hs,
    filter_linkReport P env _ hc hp, List.append_nil]

theorem mem_viewportCalls (es : List Event) (c : Call) :
    c ∈ viewportCalls es ↔
      ∃ width height, Event.framebufferSize width height ∈ es ∧
        c = .glViewport 0 0 width height := by
  induction es with
  | nil => simp [viewportCalls]
  | cons e es ih =>
    cases e with
    | framebufferSize a b =>
      simp only [viewportCalls, List.mem_cons, ih]
      constructor
      · rintro (rfl | ⟨x, y, hxy, rfl⟩)
        · exact ⟨a, b, Or.inl rfl, rfl⟩
        · exact ⟨x, y, Or.inr hxy, rfl⟩
      · rintro ⟨x, y, h | h, rfl⟩
        · cases h; exact Or.inl rfl
        · exact Or.inr ⟨x, y, h, rfl⟩
    | windowClose => simp [viewportCalls, ih]
    | other => simp [viewportCalls, ih]

/-! ## Lemmas on the replay of a trace -/

theorem replay_append (g : Gpu) (a b : List Call) :
    g.replay (a ++ b) = (g.replay a).replay b := by
  simp [Gpu.replay, List.foldl_append]

theorem replay_cons (g : Gpu) (c : Call) (l : List Call) :
    g.replay (c :: l) = (g.step c).replay l := rfl

theorem replay_nil (g : Gpu) : g.replay [] = g := rfl

theorem replay_viewportCalls (g : Gpu) (es : List Event) : g.replay (viewportCalls es) = g := by
  induction es with
  | nil => rfl
  | cons e es ih => cases e <;> simp [viewportCalls, replay_cons, Gpu.step, ih]

theorem replay_inputCalls (g : Gpu) (env : Env) (window k : Nat) :
    g.replay (inputCalls env window k) = g := by
  unfold inputCalls
  split <;> simp [replay_cons, replay_nil, Gpu.step]

theorem replay_createShaderCalls (g : Gpu) (env : Env) (shaderType : Nat) (src : String) :
    g.replay (createShaderCalls env shaderType src) = g := by
  unfold createShaderCalls
  split <;> simp [replay_cons, replay_nil, Gpu.step]

theorem replay_linkReport (g : Gpu) (env : Env) (program : Nat) :
    g.replay (linkReport env program) = g := by
  unfold linkReport
  split <;> simp [replay_cons, replay_nil, Gpu.step]

theorem replay_loopEntry (env : Env) (window : Nat) :
    Gpu.start.replay (loopEntry env window).trace = Gpu.start.replay (uploadCalls env) := by
  simp only [loopEntry, buildCalls, replay_append, replay_createShaderCalls, replay_linkReport]
  simp [bootCalls, replay_cons, replay_nil, Gpu.step]

theorem uploaded_entry (env : Env) (hvao : env.genVertexArray ≠ 0) (hvbo : env.genBuffer ≠ 0) :
    Uploaded env (Gpu.start.replay (uploadCalls env)) ∧
    (Gpu.start.replay (uploadCalls env)).draws = [] := by
  refine ⟨⟨?_, ?_, ?_⟩, ?_⟩
  · simp [uploadCalls, replay_cons, replay_nil, Gpu.step, Gpu.start, hvao, hvbo]
  · simp [uploadCalls, replay_cons, replay_nil, Gpu.step, Gpu.start, hvao, hvbo]
  · intro i hi
    simp [uploadCalls, replay_cons, replay_nil, Gpu.step, Gpu.start, hvao, hvbo, hi, Attrib.unset]
  · simp [uploadCalls, replay_cons, replay_nil, Gpu.step, Gpu.start, hvao, hvbo]

theorem fetch_uploaded (env : Env) (g : Gpu) (hvao : env.genVertexArray ≠ 0)
    (hu : Uploaded env g) (hb : g.boundArray = env.genVertexArray) :
    g.fetch 0 6 = expectedReads env.genBuffer := by
  obtain ⟨hs, ha, hd⟩ := hu
  have hoff : ∀ i, i ≠ 0 → g.fetchAttrib (g.attribs env.genVertexArray i) 0 6 = [] := by
    intro i hi
    simp [Gpu.fetchAttrib, hd i hi]
  simp [Gpu.fetch, hb, hvao, maxVertexAttribs, List.range, List.range.loop, hoff]
  simp [Gpu.fetchAttrib, ha, fetchedOffsets, List.range, List.range.loop, Gpu.readFloat, hs,
    sizeofFloat, expectedReads, vertexAt, vertices]

theorem replay_frame (env : Env) (window k : Nat) (g : Gpu) (hvao : env.genVertexArray ≠ 0)
    (hu : Uploaded env g) :
    g.replay (.glfwWindowShouldClose window ::
        bodyCalls env window env.createProgramHandle env.genVertexArray k) =
      { g with boundArray := env.genVertexArray,
               draws := g.draws ++ [expectedReads env.genBuffer] } := by
  have hf := fetch_uploaded env { g with boundArray := env.genVertexArray } hvao hu rfl
  simp only [bodyCalls, renderCalls, replay_cons, replay_append, replay_inputCalls,
    replay_viewportCalls, replay_nil, Gpu.step, hf]

theorem replay_framesFrom (env : Env) (window : Nat) (hvao : env.genVertexArray ≠ 0)
    (start m : Nat) (g : Gpu) (hu : Uploaded env g) :
    (g.replay (framesFrom env window env.createProgramHandle env.genVertexArray start m)).draws =
        g.draws ++ List.replicate m (expectedReads env.genBuffer) ∧
      Uploaded env
        (g.replay (framesFrom env window env.createProgramHandle env.genVertexArray start m)) := by
  induction m generalizing start g with
  | zero => exact ⟨by simp [framesFrom, replay_nil], by simpa [framesFrom, replay_nil] using hu⟩
  | succ m ih =>
    have hcons : framesFrom env window env.createProgramHandle env.genVertexArray start (m + 1) =
        (.glfwWindowShouldClose window ::
          bodyCalls env window env.createProgramHandle env.genVertexArray start) ++
        framesFrom env window env.createProgramHandle env.genVertexArray (start + 1) m := by
      simp [framesFrom]
    rw [hcons, replay_append, replay_frame env window start g hvao hu]
    obtain ⟨h1, h2⟩ := ih (start + 1)
      { g with boundArray := env.genVertexArray,
               draws := g.draws ++ [expectedReads env.genBuffer] } hu
    refine ⟨?_, h2⟩
    rw [h1]
    simp [List.replicate_succ]

theorem replay_tail_draws (env : Env) (window : Nat) (g : Gpu) (tail : List Call)
    (htail : tail = [] ∨ tail = .glfwWindowShouldClose window :: shutdownCalls env) :
    (g.replay tail).draws = g.draws := by
  rcases htail with rfl | rfl
  · rfl
  · simp [shutdownCalls, replay_cons, replay_nil, Gpu.step]

/-! ## The claims -/

/-- C1 (the code departs from the claim): in every run of `main` that gets past
the loader, for every amount of fuel, the program is linked exactly once and
no `glDeleteShader` call is issued at all, neither before nor after the link.
`main` calls `deleteShaders(shaders)` without a count, the default `count = 0`
applies, and with a count of 0 `deleteShaders` issues no call; called with the
count 2 it would delete both handles in order. -/
theorem main_never_deletes_shaders (env : Env) (fuel window : Nat)
    (hwin : env.createWindow = some window) (hglad : env.gladLoad ≠ 0) :
    (main env fuel).trace.countP Call.isLink = 1 ∧
    Call.glLinkProgram env.createProgramHandle ∈ (main env fuel).trace ∧
    (main env fuel).trace.countP Call.isDeleteShader = 0 ∧
    (∀ shaders w, deleteShaders shaders 0 w = some w) ∧
    (∀ a b w, deleteShaders (some [a, b]) 2 w =
      some { w with trace := w.trace ++ [.glDeleteShader a, .glDeleteShader b] }) := by
  obtain ⟨m, tail, -, -, htrace, htail⟩ := main_shape env fuel window hwin hglad
  have hentryL := countP_loopEntry Call.isLink env window (by simp [Call.isLink])
    (by simp [Call.isLink]) (by simp [Call.isLink])
  have hentryD := countP_loopEntry Call.isDeleteShader env window (by simp [Call.isDeleteShader])
    (by simp [Call.isDeleteShader]) (by simp [Call.isDeleteShader])
  have hframesL := countP_framesFrom Call.isLink env window env.createProgramHandle
    env.genVertexArray (by simp [Call.isLink]) (by simp [Call.isLink]) (by simp [Call.isLink])
    (by simp [Call.isLink]) 0 m
  have hframesD := countP_framesFrom Call.isDeleteShader env window env.createProgramHandle
    env.genVertexArray (by simp [Call.isDeleteShader]) (by simp [Call.isDeleteShader])
    (by simp [Call.isDeleteShader]) (by simp [Call.isDeleteShader]) 0 m
  have htailL : tail.countP Call.isLink = 0 := by
    rcases htail with ⟨-, rfl⟩ | ⟨-, rfl⟩ <;> simp [shutdownCalls, Call.isLink]
  have htailD : tail.countP Call.isDeleteShader = 0 := by
    rcases htail with ⟨-, rfl⟩ | ⟨-, rfl⟩ <;> simp [shutdownCalls, Call.isDeleteShader]
  have hL : (main env fuel).trace.countP Call.isLink = 1 := by
    rw [htrace, List.countP_append, List.countP_append, hentryL, hframesL, htailL]
    simp [bootCalls, uploadCalls, renderCalls, Call.isLink]
  refine ⟨hL, ?_, ?_, ?_, ?_⟩
  · rw [htrace]
    simp [loopEntry, buildCalls]
  · rw [htrace, List.countP_append, List.countP_append, hentryD, hframesD, htailD]
    simp [bootCalls, uploadCalls, renderCalls, Call.isDeleteShader]
  · intro shaders w
    cases shaders <;> simp [deleteShaders]
  · intro a b w
    simp [deleteShaders, deleteLoop, emit]

theorem main_never_deletes_shaders_witness :
    demoEnv.createWindow = some 1 ∧ demoEnv.gladLoad ≠ 0 ∧
    (main demoEnv 5).trace.countP Call.isLink = 1 ∧
    Call.glLinkProgram 20 ∈ (main demoEnv 5).trace ∧
    (main demoEnv 5).trace.countP Call.isDeleteShader = 0 :=
  have h := main_never_deletes_shaders demoEnv 5 1 rfl (by decide)
  ⟨rfl, by decide, h.1, h.2.1, h.2.2.1⟩

/-- C2: `createShaderProgram` creates one program and returns its handle.  With
a null list or a count of at most 0 that is all it does: no attach, no link,
nothing written.  With a list `arr` and a positive count within the list it
attaches `arr[0..count-1]`, each once and in order, links once, reads the link
status, and reports only a failed link.  Whatever it returns, it has issued
one `glCreateProgram`, no `glDeleteShader` (a detach call does not occur in
the program at all), and it has linked once exactly when the list is non-null
and the count positive. -/
theorem createShaderProgram_contract (env : Env) (shaders : Option (List Nat)) (count : Int)
    (w : World) :
    ((shaders = none ∨ count ≤ 0) →
      createShaderProgram env shaders count w =
        some (env.createProgramHandle, { w with trace := w.trace ++ [.glCreateProgram] })) ∧
    (∀ arr, shaders = some arr → 0 < count → count.toNat ≤ arr.length →
      createShaderProgram env shaders count w =
        some (env.createProgramHandle,
          { w with trace := w.trace ++ [.glCreateProgram] ++
              (arr.take count.toNat).map (.glAttachShader env.createProgramHandle) ++
              [.glLinkProgram env.createProgramHandle,
               .glGetProgramiv env.createProgramHandle GL_LINK_STATUS] ++
              linkReport env env.createProgramHandle })) ∧
    (∀ r, createShaderProgram env shaders count w = some r →
      r.1 = env.createProgramHandle ∧
      ∃ added, r.2.trace = w.trace ++ added ∧
        added.countP (fun c => decide (c = .glCreateProgram)) = 1 ∧
        added.countP Call.isDeleteShader = 0 ∧
        added.countP Call.isLink = (if shaders.isSome ∧ 0 < count then 1 else 0) ∧
        (¬ (shaders.isSome ∧ 0 < count) → added.countP Call.isCout = 0)) := by
  have hnull : (shaders = none ∨ count ≤ 0) →
      createShaderProgram env shaders count w =
        some (env.createProgramHandle, { w with trace := w.trace ++ [.glCreateProgram] }) := by
    rintro (rfl | hc)
    · simp [createShaderProgram, glCreateProgram, emit]
    · cases shaders <;> simp [createShaderProgram, glCreateProgram, emit, not_lt.mpr hc]
  have hlist : ∀ arr, shaders = some arr → 0 < count → count.toNat ≤ arr.length →
      createShaderProgram env shaders count w =
        some (env.createProgramHandle,
          { w with trace := w.trace ++ [.glCreateProgram] ++
              (arr.take count.toNat).map (.glAttachShader env.createProgramHandle) ++
              [.glLinkProgram env.createProgramHandle,
               .glGetProgramiv env.createProgramHandle GL_LINK_STATUS] ++
              linkReport env env.createProgramHandle }) := by
    rintro arr rfl hc hlen
    have ha := attachLoop_eq env.createProgramHandle arr count.toNat 0
      (emit .glCreateProgram w) (by omega)
    unfold createShaderProgram
    simp only [glCreateProgram, hc, if_true]
    rw [ha]
    by_cases hl : env.linkStatus env.createProgramHandle = 0 <;>
      simp [glGetProgramiv, glGetProgramInfoLog, emit, hl, linkReport]
  refine ⟨hnull, hlist, ?_⟩
  intro r hr
  by_cases hcase : shaders = none ∨ count ≤ 0
  · rw [hnull hcase] at hr
    have hno : ¬ (shaders.isSome ∧ 0 < count) := by
      rcases hcase with rfl | hc
      · simp
      · intro h; omega
    cases hr
    exact ⟨rfl, [.glCreateProgram], rfl, by simp, by simp [Call.isDeleteShader],
      by simp [Call.isLink, hno], fun _ => by simp [Call.isCout]⟩
  · have hsome : shaders ≠ none := fun h => hcase (Or.inl h)
    have hc : 0 < count := not_le.mp (fun h => hcase (Or.inr h))
    obtain ⟨arr, rfl⟩ := Option.ne_none_iff_exists'.mp hsome
    by_cases hlen : count.toNat ≤ arr.length
    · rw [hlist arr rfl hc hlen] at hr
      cases hr
      refine ⟨rfl, _, by simp only [List.append_assoc]; rfl, ?_⟩
      have hmap : ∀ (P : Call → Bool) (l : List Nat),
          (∀ s, P (.glAttachShader env.createProgramHandle s) = false) →
          (l.map (Call.glAttachShader env.createProgramHandle)).countP P = 0 := by
        intro P l hP
        induction l with
        | nil => simp
        | cons a l ih => simp [hP, ih]
      by_cases hl : env.linkStatus env.createProgramHandle = 0 <;>
        simp [-List.map_take, List.countP_append, hmap, Call.isDeleteShader, Call.isLink,
          Call.isCout, hc, linkReport, hl]
    · have hno := attachLoop_none env.createProgramHandle arr count.toNat 0
        (emit .glCreateProgram w) (Nat.zero_le _) (by omega)
      simp [createShaderProgram, glCreateProgram, hc, hno] at hr

theorem createShaderProgram_contract_witness :
    createShaderProgram demoEnv none 2 World.start =
      some (20, ⟨[.glCreateProgram], false, none, 0⟩) ∧
    createShaderProgram demoEnv (some [10, 11]) 0 World.start =
      some (20, ⟨[.glCreateProgram], false, none, 0⟩) ∧
    createShaderProgram demoEnv (some [10, 11]) 2 World.start =
      some (20, ⟨[.glCreateProgram, .glAttachShader 20 10, .glAttachShader 20 11,
        .glLinkProgram 20, .glGetProgramiv 20 GL_LINK_STATUS], false, none, 0⟩) :=
  ⟨(createShaderProgram_contract demoEnv none 2 World.start).1 (Or.inl rfl),
   (createShaderProgram_contract demoEnv (some [10, 11]) 0 World.start).1 (Or.inr (by decide)),
   (createShaderProgram_contract demoEnv (some [10, 11]) 2 World.start).2.1 [10, 11] rfl
     (by decide) (by decide)⟩

/-- C3: when `glfwCreateWindow` returns the null pointer, `main` returns the
non-zero status -1 for every amount of fuel; its whole trace is the seven
calls listed, so it holds no `gladLoadGLLoader`, no OpenGL call and no loop
test, and no event poll ever ran. -/
theorem main_window_creation_fails (env : Env) (fuel : Nat) (hwin : env.createWindow = none) :
    ∃ w, main env fuel = .exited (-1) w ∧ (-1 : Int) ≠ 0 ∧
      w.trace =
        [.glfwInit,
         .glfwWindowHint GLFW_CONTEXT_VERSION_MAJOR 3,
         .glfwWindowHint GLFW_CONTEXT_VERSION_MINOR 3,
         .glfwWindowHint GLFW_OPENGL_PROFILE GLFW_OPENGL_CORE_PROFILE,
         .glfwCreateWindow screenWidth screenHeight screenTitle,
         .cout "Failed to create GLFW window\n".toList,
         .glfwTerminate] ∧
      Call.gladLoadGLLoader ∉ w.trace ∧
      w.trace.countP Call.isGpu = 0 ∧
      w.trace.countP Call.isLoopTest = 0 ∧
      w.trace.countP Call.isDraw = 0 ∧
      w.frame = 0 := by
  refine ⟨_, by simp [main, glfwCreateWindow, hwin]; rfl, by decide, ?_⟩
  simp [emit, World.start, Call.isGpu, Call.isLoopTest, Call.isDraw]

theorem main_window_creation_fails_witness :
    noWindowEnv.createWindow = none ∧
    ∃ w, main noWindowEnv 3 = .exited (-1) w ∧ (-1 : Int) ≠ 0 ∧
      w.trace =
        [.glfwInit,
         .glfwWindowHint GLFW_CONTEXT_VERSION_MAJOR 3,
         .glfwWindowHint GLFW_CONTEXT_VERSION_MINOR 3,
         .glfwWindowHint GLFW_OPENGL_PROFILE GLFW_OPENGL_CORE_PROFILE,
         .glfwCreateWindow screenWidth screenHeight screenTitle,
         .cout "Failed to create GLFW window\n".toList,
         .glfwTerminate] ∧
      Call.gladLoadGLLoader ∉ w.trace ∧
      w.trace.countP Call.isGpu = 0 ∧
      w.trace.countP Call.isLoopTest = 0 ∧
      w.trace.countP Call.isDraw = 0 ∧
      w.frame = 0 :=
  ⟨rfl, main_window_creation_fails noWindowEnv 3 rfl⟩

/-- C4: when the window `window` is created and `gladLoadGLLoader` returns 0,
`main` returns the non-zero status -1 for every amount of fuel; its whole
trace is the calls up to the loader followed by the message, so no shader is
created, no buffer is filled, nothing is cleared, drawn or swapped, and the
loop test is never evaluated. -/
theorem main_loader_fails (env : Env) (fuel window : Nat)
    (hwin : env.createWindow = some window) (hglad : env.gladLoad = 0) :
    ∃ w, main env fuel = .exited (-1) w ∧ (-1 : Int) ≠ 0 ∧
      w.trace = bootCalls window ++ [.cout "Failed to initialize GLAD\n".toList] ∧
      w.trace.countP Call.isGpu = 0 ∧
      w.trace.countP Call.isCreateShader = 0 ∧
      w.trace.countP Call.isBufferData = 0 ∧
      w.trace.countP Call.isClear = 0 ∧
      w.trace.countP Call.isDraw = 0 ∧
      w.trace.countP Call.isSwap = 0 ∧
      w.trace.countP Call.isLoopTest = 0 ∧
      w.frame = 0 := by
  refine ⟨_, by simp [main, glfwCreateWindow, hwin, gladLoadGLLoader, hglad]; rfl, by decide, ?_⟩
  simp [emit, World.start, glfwSetFramebufferSizeCallback, bootCalls, Call.isGpu,
    Call.isLoopTest, Call.isDraw, Call.isCreateShader, Call.isBufferData, Call.isClear,
    Call.isSwap]

theorem main_loader_fails_witness :
    noLoaderEnv.createWindow = some 1 ∧ noLoaderEnv.gladLoad = 0 ∧
    ∃ w, main noLoaderEnv 3 = .exited (-1) w ∧ (-1 : Int) ≠ 0 ∧
      w.trace = bootCalls 1 ++ [.cout "Failed to initialize GLAD\n".toList] ∧
      w.trace.countP Call.isGpu = 0 ∧
      w.trace.countP Call.isCreateShader = 0 ∧
      w.trace.countP Call.isBufferData = 0 ∧
      w.trace.countP Call.isClear = 0 ∧
      w.trace.countP Call.isDraw = 0 ∧
      w.trace.countP Call.isSwap = 0 ∧
      w.trace.countP Call.isLoopTest = 0 ∧
      w.frame = 0 :=
  ⟨rfl, rfl, main_loader_fails noLoaderEnv 3 1 rfl rfl⟩

/-- C5: on the normal exit path (window created, loader succeeded, close flag
first set in frame `n`, so that the loop runs `n + 1` iterations) and with
enough fuel, `main` returns 0.  Its trace ends with the release of the vertex
array named by `glGenVertexArrays`, of the buffer named by `glGenBuffers` and
of the program `createShaderProgram` returned, followed by `glfwTerminate`;
nothing before these four calls releases an object or terminates GLFW, so each
object is released exactly once, and the three objects were created in the
part before. -/
theorem main_normal_exit_releases (env : Env) (window n fuel : Nat)
    (hwin : env.createWindow = some window) (hglad : env.gladLoad ≠ 0)
    (hopen : ∀ k, k < n → closes env k = false) (hclose : closes env n = true)
    (hfuel : n + 2 ≤ fuel) :
    ∃ w before, main env fuel = .exited 0 w ∧
      w.trace = before ++
        [.glDeleteVertexArrays 1 env.genVertexArray,
         .glDeleteBuffers 1 env.genBuffer,
         .glDeleteProgram env.createProgramHandle,
         .glfwTerminate] ∧
      before.countP Call.isRelease = 0 ∧
      before.countP Call.isTerminate = 0 ∧
      w.trace.countP Call.isRelease = 3 ∧
      before.countP Call.isDraw = n + 1 ∧
      Call.glGenVertexArrays 1 ∈ before ∧
      Call.glGenBuffers 1 ∈ before ∧
      Call.glCreateProgram ∈ before ∧
      (∀ w0 r, createShaderProgram env
          (some [env.createShaderHandle GL_VERTEX_SHADER,
            env.createShaderHandle GL_FRAGMENT_SHADER]) 2 w0 = some r →
        r.1 = env.createProgramHandle) := by
  have hentryR := countP_loopEntry Call.isRelease env window (by simp [Call.isRelease])
    (by simp [Call.isRelease]) (by simp [Call.isRelease])
  have hentryT := countP_loopEntry Call.isTerminate env window (by simp [Call.isTerminate])
    (by simp [Call.isTerminate]) (by simp [Call.isTerminate])
  have hentryD := countP_loopEntry Call.isDraw env window (by simp [Call.isDraw])
    (by simp [Call.isDraw]) (by simp [Call.isDraw])
  have hframesR := countP_framesFrom Call.isRelease env window env.createProgramHandle
    env.genVertexArray (by simp [Call.isRelease]) (by simp [Call.isRelease])
    (by simp [Call.isRelease]) (by simp [Call.isRelease]) 0 (n + 1)
  have hframesT := countP_framesFrom Call.isTerminate env window env.createProgramHandle
    env.genVertexArray (by simp [Call.isTerminate]) (by simp [Call.isTerminate])
    (by simp [Call.isTerminate]) (by simp [Call.isTerminate]) 0 (n + 1)
  have hframesD := countP_framesFrom Call.isDraw env window env.createProgramHandle
    env.genVertexArray (by simp [Call.isDraw]) (by simp [Call.isDraw])
    (by simp [Call.isDraw]) (by simp [Call.isDraw]) 0 (n + 1)
  have hR : ((loopEntry env window).trace ++
      framesFrom env window env.createProgramHandle env.genVertexArray 0 (n + 1) ++
      [Call.glfwWindowShouldClose window]).countP Call.isRelease = 0 := by
    rw [List.countP_append, List.countP_append, hentryR, hframesR]
    simp [bootCalls, uploadCalls, renderCalls, Call.isRelease]
  refine ⟨_, (loopEntry env window).trace ++
      framesFrom env window env.createProgramHandle env.genVertexArray 0 (n + 1) ++
      [.glfwWindowShouldClose window],
    main_exit env window n fuel hwin hglad hopen hclose hfuel, rfl, hR, ?_, ?_, ?_, ?_, ?_, ?_, ?_⟩
  · rw [List.countP_append, List.countP_append, hentryT, hframesT]
    simp [bootCalls, uploadCalls, renderCalls, Call.isTerminate]
  · show (_ ++ shutdownCalls env).countP Call.isRelease = 3
    rw [List.countP_append, hR]
    simp [shutdownCalls, Call.isRelease]
  · rw [List.countP_append, List.countP_append, hentryD, hframesD]
    simp [bootCalls, uploadCalls, renderCalls, Call.isDraw]
  · simp [loopEntry, uploadCalls]
  · simp [loopEntry, uploadCalls]
  · simp [loopEntry, buildCalls]
  · intro w0 r hr
    by_cases hl : env.linkStatus env.createProgramHandle = 0 <;>
      · simp [createShaderProgram, attachLoop, glCreateProgram, glGetProgramiv,
          glGetProgramInfoLog, hl] at hr
        rw [← hr]

theorem main_normal_exit_releases_witness :
    demoEnv.createWindow = some 1 ∧ demoEnv.gladLoad ≠ 0 ∧
    (∀ k, k < 1 → closes demoEnv k = false) ∧ closes demoEnv 1 = true ∧ 1 + 2 ≤ 5 ∧
    ∃ w before, main demoEnv 5 = .exited 0 w ∧
      w.trace = before ++
        [.glDeleteVertexArrays 1 30, .glDeleteBuffers 1 31, .glDeleteProgram 20,
         .glfwTerminate] ∧
      before.countP Call.isRelease = 0 ∧
      before.countP Call.isTerminate = 0 ∧
      w.trace.countP Call.isRelease = 3 ∧
      before.countP Call.isDraw = 2 :=
  have h := main_normal_exit_releases demoEnv 1 1 5 rfl (by decide) (by decide) (by decide)
    (by decide)
  ⟨rfl, by decide, by decide, by decide, by decide,
    h.elim fun w hw => hw.elim fun before hb =>
      ⟨w, before, hb.1, hb.2.1, hb.2.2.1, hb.2.2.2.1, hb.2.2.2.2.1, hb.2.2.2.2.2.1⟩⟩

/-- C6: in a run of `main` past the loader, for every amount of fuel.  Each
pass through the loop body issues, after the calls of `processInput`, the
clear colour (0.2, 0.3, 0.3, 1.0), the clear of the colour buffer, the binding
of the program `createShaderProgram` returned and of the generated vertex
array, and then the draw `glDrawArrays(GL_TRIANGLES, 0, 6)`; the calls before
and after hold no draw and no `glBufferData`.  In the whole trace every draw
call is that one, there are as many draw calls as completed iterations (event
polls), and `glBufferData` occurs exactly once, in the part before the loop.
And when the close flag is not set in the first `n` frames, the run observed
after `n` iterations (fuel `n`) has issued exactly `n` draw calls. -/
theorem render_loop_draws_once_per_frame (env : Env) (fuel window : Nat)
    (hwin : env.createWindow = some window) (hglad : env.gladLoad ≠ 0) :
    (∀ w, w.sizeCallback = some window →
      ∃ before after,
        (frameBody env window env.createProgramHandle env.genVertexArray w).trace =
          w.trace ++ before ++
            [.glClearColor 0.2 0.3 0.3 1.0, .glClear GL_COLOR_BUFFER_BIT,
             .glUseProgram env.createProgramHandle, .glBindVertexArray env.genVertexArray,
             .glDrawArrays GL_TRIANGLES 0 6] ++ after ∧
        before.countP Call.isDraw = 0 ∧ after.countP Call.isDraw = 0 ∧
        before.countP Call.isBufferData = 0 ∧ after.countP Call.isBufferData = 0) ∧
    (∃ m tail, m ≤ fuel ∧
      (main env fuel).trace = bootCalls window ++ buildCalls env ++ uploadCalls env ++
        framesFrom env window env.createProgramHandle env.genVertexArray 0 m ++ tail ∧
      (tail = [] ∨ tail = .glfwWindowShouldClose window :: shutdownCalls env) ∧
      (main env fuel).trace.countP Call.isPoll = m ∧
      (main env fuel).trace.countP Call.isDraw = m ∧
      (main env fuel).trace.filter Call.isDraw = List.replicate m (.glDrawArrays GL_TRIANGLES 0 6) ∧
      (main env fuel).trace.countP Call.isBufferData = 1 ∧
      (bootCalls window ++ buildCalls env ++ uploadCalls env).countP Call.isBufferData = 1 ∧
      (framesFrom env window env.createProgramHandle env.genVertexArray 0 m ++ tail).countP
        Call.isBufferData = 0) ∧
    (∀ n, (∀ k, k < n → closes env k = false) →
      ∃ w, main env n = .spinning w ∧ w.frame = n ∧ w.trace.countP Call.isDraw = n) := by
  refine ⟨?_, ?_, ?_⟩
  · intro w hcb
    refine ⟨inputCalls env window w.frame,
      [.glfwSwapBuffers window, .glfwPollEvents] ++ viewportCalls (env.events w.frame), ?_, ?_, ?_,
      ?_, ?_⟩
    · rw [frameBody_eq env window _ _ w hcb]
      simp [bodyCalls, renderCalls]
    · unfold inputCalls; split <;> simp [Call.isDraw]
    · simp [List.countP_append, countP_viewportCalls Call.isDraw (by simp [Call.isDraw]),
        Call.isDraw]
    · unfold inputCalls; split <;> simp [Call.isBufferData]
    · simp [List.countP_append,
        countP_viewportCalls Call.isBufferData (by simp [Call.isBufferData]), Call.isBufferData]
  · obtain ⟨m, tail, hm, -, htrace, htail⟩ := main_shape env fuel window hwin hglad
    have htail' : tail = [] ∨ tail = .glfwWindowShouldClose window :: shutdownCalls env := by
      rcases htail with ⟨-, h⟩ | ⟨-, h⟩
      · exact Or.inl h
      · exact Or.inr h
    have hentryP := countP_loopEntry Call.isPoll env window (by simp [Call.isPoll])
      (by simp [Call.isPoll]) (by simp [Call.isPoll])
    have hentryD := countP_loopEntry Call.isDraw env window (by simp [Call.isDraw])
      (by simp [Call.isDraw]) (by simp [Call.isDraw])
    have hentryB := countP_loopEntry Call.isBufferData env window (by simp [Call.isBufferData])
      (by simp [Call.isBufferData]) (by simp [Call.isBufferData])
    have hentryF := filter_loopEntry Call.isDraw env window (by simp [Call.isDraw])
      (by simp [Call.isDraw]) (by simp [Call.isDraw])
    have hframesP := countP_framesFrom Call.isPoll env window env.createProgramHandle
      env.genVertexArray (by simp [Call.isPoll]) (by simp [Call.isPoll])
      (by simp [Call.isPoll]) (by simp [Call.isPoll]) 0 m
    have hframesD := countP_framesFrom Call.isDraw env window env.createProgramHandle
      env.genVertexArray (by simp [Call.isDraw]) (by simp [Call.isDraw])
      (by simp [Call.isDraw]) (by simp [Call.isDraw]) 0 m
    have hframesB := countP_framesFrom Call.isBufferData env window env.createProgramHandle
      env.genVertexArray (by simp [Call.isBufferData]) (by simp [Call.isBufferData])
      (by simp [Call.isBufferData]) (by simp [Call.isBufferData]) 0 m
    have hframesF := filter_framesFrom Call.isDraw env window env.createProgramHandle
      env.genVertexArray (by simp [Call.isDraw]) (by simp [Call.isDraw])
      (by simp [Call.isDraw]) (by simp [Call.isDraw]) (.glDrawArrays GL_TRIANGLES 0 6)
      (by simp [renderCalls, Call.isDraw]) 0 m
    have hentryB1 : (bootCalls window ++ buildCalls env ++ uploadCalls env).countP
        Call.isBufferData = 1 := by
      have : (loopEntry env window).trace = bootCalls window ++ buildCalls env ++ uploadCalls env :=
        rfl
      rw [← this, hentryB]
      simp [bootCalls, uploadCalls, Call.isBufferData]
    have hrestB : (framesFrom env window env.createProgramHandle env.genVertexArray 0 m ++
        tail).countP Call.isBufferData = 0 := by
      rw [List.countP_append, hframesB]
      rcases htail' with rfl | rfl <;> simp [renderCalls, shutdownCalls, Call.isBufferData]
    refine ⟨m, tail, hm, htrace, htail', ?_, ?_, ?_, ?_, hentryB1, hrestB⟩
    · rw [htrace, List.countP_append, List.countP_append, hentryP, hframesP]
      rcases htail' with rfl | rfl <;>
        simp [bootCalls, uploadCalls, renderCalls, shutdownCalls, Call.isPoll]
    · rw [htrace, List.countP_append, List.countP_append, hentryD, hframesD]
      rcases htail' with rfl | rfl <;>
        simp [bootCalls, uploadCalls, renderCalls, shutdownCalls, Call.isDraw]
    · rw [htrace, List.filter_append, List.filter_append, hentryF, hframesF]
      rcases htail' with rfl | rfl <;>
        simp [bootCalls, uploadCalls, shutdownCalls, Call.isDraw]
    · have : (main env fuel).trace = (bootCalls window ++ buildCalls env ++ uploadCalls env) ++
          (framesFrom env window env.createProgramHandle env.genVertexArray 0 m ++ tail) := by
        rw [htrace]; simp [loopEntry]
      rw [this, List.countP_append, hentryB1, hrestB]
  · intro n hopen
    have hentryD := countP_loopEntry Call.isDraw env window (by simp [Call.isDraw])
      (by simp [Call.isDraw]) (by simp [Call.isDraw])
    have hframesD := countP_framesFrom Call.isDraw env window env.createProgramHandle
      env.genVertexArray (by simp [Call.isDraw]) (by simp [Call.isDraw])
      (by simp [Call.isDraw]) (by simp [Call.isDraw]) 0 n
    refine ⟨_, main_spin env window n hwin hglad hopen, rfl, ?_⟩
    show ((loopEntry env window).trace ++ _).countP Call.isDraw = n
    rw [List.countP_append, hentryD, hframesD]
    simp [bootCalls, uploadCalls, renderCalls, Call.isDraw]

theorem render_loop_draws_once_per_frame_witness :
    demoEnv.createWindow = some 1 ∧ demoEnv.gladLoad ≠ 0 ∧
    ∃ m tail, m ≤ 5 ∧
      (main demoEnv 5).trace = bootCalls 1 ++ buildCalls demoEnv ++ uploadCalls demoEnv ++
        framesFrom demoEnv 1 20 30 0 m ++ tail ∧
      (tail = [] ∨ tail = .glfwWindowShouldClose 1 :: shutdownCalls demoEnv) ∧
      (main demoEnv 5).trace.countP Call.isPoll = m ∧
      (main demoEnv 5).trace.countP Call.isDraw = m ∧
      (main demoEnv 5).trace.filter Call.isDraw =
        List.replicate m (.glDrawArrays GL_TRIANGLES 0 6) ∧
      (main demoEnv 5).trace.countP Call.isBufferData = 1 ∧
      (bootCalls 1 ++ buildCalls demoEnv ++ uploadCalls demoEnv).countP Call.isBufferData = 1 ∧
      (framesFrom demoEnv 1 20 30 0 m ++ tail).countP Call.isBufferData = 0 :=
  ⟨rfl, by decide, (render_loop_draws_once_per_frame demoEnv 5 1 rfl (by decide)).2.1⟩

/-- C7: let Escape be reported as pressed in frame `n` of a run of `main` that
reaches that frame (window created, loader succeeded, close flag not set in an
earlier frame).  Then `processInput`, run in frame `n`, sets the close flag,
the flag is still set when the body of that iteration ends, and with enough
fuel `main` leaves the loop at the next test: it returns 0 after exactly
`n + 1` iterations, so its trace holds `n + 1` draw calls and no frame after
frame `n`.  In any world where Escape is not reported as pressed,
`processInput` leaves the close flag as it was. -/
theorem escape_ends_the_loop (env : Env) (window n fuel : Nat)
    (hwin : env.createWindow = some window) (hglad : env.gladLoad ≠ 0)
    (hopen : ∀ k, k < n → closes env k = false)
    (hesc : env.getKey n GLFW_KEY_ESCAPE = GLFW_PRESS) (hfuel : n + 2 ≤ fuel) :
    (∀ w, w.frame = n → (processInput env window w).shouldClose = true) ∧
    (∀ w, w.frame = n → w.sizeCallback = some window →
      (frameBody env window env.createProgramHandle env.genVertexArray w).shouldClose = true) ∧
    (∃ w, main env fuel = .exited 0 w ∧
      w.trace = bootCalls window ++ buildCalls env ++ uploadCalls env ++
        framesFrom env window env.createProgramHandle env.genVertexArray 0 (n + 1) ++
        .glfwWindowShouldClose window :: shutdownCalls env ∧
      w.trace.countP Call.isDraw = n + 1 ∧
      w.trace.countP Call.isPoll = n + 1 ∧
      w.frame = n + 1) ∧
    (∀ (env' : Env) (win : Nat) (w : World),
      env'.getKey w.frame GLFW_KEY_ESCAPE ≠ GLFW_PRESS →
      (processInput env' win w).shouldClose = w.shouldClose) := by
  have hclose : closes env n = true := by simp [closes, escapePressed, hesc]
  refine ⟨?_, ?_, ?_, ?_⟩
  · intro w hw
    simp [processInput, glfwGetKey, glfwSetWindowShouldClose, hw, hesc]
  · intro w hw hcb
    rw [frameBody_eq env window _ _ w hcb, hw]
    simp [hclose]
  · have hentryD := countP_loopEntry Call.isDraw env window (by simp [Call.isDraw])
      (by simp [Call.isDraw]) (by simp [Call.isDraw])
    have hentryP := countP_loopEntry Call.isPoll env window (by simp [Call.isPoll])
      (by simp [Call.isPoll]) (by simp [Call.isPoll])
    have hframesD := countP_framesFrom Call.isDraw env window env.createProgramHandle
      env.genVertexArray (by simp [Call.isDraw]) (by simp [Call.isDraw])
      (by simp [Call.isDraw]) (by simp [Call.isDraw]) 0 (n + 1)
    have hframesP := countP_framesFrom Call.isPoll env window env.createProgramHandle
      env.genVertexArray (by simp [Call.isPoll]) (by simp [Call.isPoll])
      (by simp [Call.isPoll]) (by simp [Call.isPoll]) 0 (n + 1)
    refine ⟨_, main_exit env window n fuel hwin hglad hopen hclose hfuel, ?_, ?_, ?_, rfl⟩
    · simp [loopEntry]
    · show (((loopEntry env window).trace ++ _) ++ _ ++ _).countP Call.isDraw = n + 1
      rw [List.countP_append, List.countP_append, List.countP_append, hentryD, hframesD]
      simp [bootCalls, uploadCalls, renderCalls, shutdownCalls, Call.isDraw]
    · show (((loopEntry env window).trace ++ _) ++ _ ++ _).countP Call.isPoll = n + 1
      rw [List.countP_append, List.countP_append, List.countP_append, hentryP, hframesP]
      simp [bootCalls, uploadCalls, renderCalls, shutdownCalls, Call.isPoll]
  · intro env' win w hne
    simp [processInput, glfwGetKey, hne, emit]

theorem escape_ends_the_loop_witness :
    demoEnv.createWindow = some 1 ∧ demoEnv.gladLoad ≠ 0 ∧
    (∀ k, k < 1 → closes demoEnv k = false) ∧
    demoEnv.getKey 1 GLFW_KEY_ESCAPE = GLFW_PRESS ∧ 1 + 2 ≤ 7 ∧
    ∃ w, main demoEnv 7 = .exited 0 w ∧
      w.trace = bootCalls 1 ++ buildCalls demoEnv ++ uploadCalls demoEnv ++
        framesFrom demoEnv 1 20 30 0 (1 + 1) ++
        .glfwWindowShouldClose 1 :: shutdownCalls demoEnv ∧
      w.trace.countP Call.isDraw = 1 + 1 ∧
      w.trace.countP Call.isPoll = 1 + 1 ∧
      w.frame = 1 + 1 :=
  ⟨rfl, by decide, by decide, rfl, by decide,
    (escape_ends_the_loop demoEnv 1 1 7 rfl (by decide) (by decide) rfl (by decide)).2.2.1⟩

/-- C8: `createShader` returns the handle `glCreateShader` gave it, whatever the
compile status.  When the status is 0 it reads the info log into a buffer of
512 characters and writes one message: the fixed header, then the first 511
characters at most of the log of the driver, then a newline; the message is
not empty.  When the status is not 0 it writes nothing.  Whatever the compile
status of the two shaders, a run of `main` past the loader with some fuel goes
on: after the calls of both `createShader` it links the program, fills the
buffer, evaluates the loop test and runs the body of the first frame, draw
included; it ends as a return of 0 or still in the loop, never undefined. -/
theorem createShader_reports_and_goes_on (env : Env) (fuel window : Nat)
    (hwin : env.createWindow = some window) (hglad : env.gladLoad ≠ 0) (hfuel : 0 < fuel) :
    (∀ (e : Env) (shaderType : Nat) (shaderSource : String) (w : World),
      (createShader e shaderType shaderSource w).1 = e.createShaderHandle shaderType ∧
      (e.compileStatus (e.createShaderHandle shaderType) = 0 →
        ∃ log, log = (e.shaderInfoLog (e.createShaderHandle shaderType)).take 511 ∧
          log.length ≤ 511 ∧ compileHeader ++ log ++ ['\n'] ≠ [] ∧
          (createShader e shaderType shaderSource w).2.trace = w.trace ++
            [.glCreateShader shaderType,
             .glShaderSource (e.createShaderHandle shaderType) 1 shaderSource,
             .glCompileShader (e.createShaderHandle shaderType),
             .glGetShaderiv (e.createShaderHandle shaderType) GL_COMPILE_STATUS,
             .glGetShaderInfoLog (e.createShaderHandle shaderType) 512,
             .cout (compileHeader ++ log ++ ['\n'])]) ∧
      (e.compileStatus (e.createShaderHandle shaderType) ≠ 0 →
        (createShader e shaderType shaderSource w).2.trace = w.trace ++
          [.glCreateShader shaderType,
           .glShaderSource (e.createShaderHandle shaderType) 1 shaderSource,
           .glCompileShader (e.createShaderHandle shaderType),
           .glGetShaderiv (e.createShaderHandle shaderType) GL_COMPILE_STATUS])) ∧
    (∃ linked later,
      (main env fuel).trace = bootCalls window ++
        createShaderCalls env GL_VERTEX_SHADER vertexShaderSource ++
        createShaderCalls env GL_FRAGMENT_SHADER fragmentShaderSource ++
        linked ++ uploadCalls env ++
        .glfwWindowShouldClose window ::
          bodyCalls env window env.createProgramHandle env.genVertexArray 0 ++ later ∧
      Call.glLinkProgram env.createProgramHandle ∈ linked ∧
      Call.glBufferData GL_ARRAY_BUFFER 72 vertices GL_STATIC_DRAW ∈ uploadCalls env ∧
      Call.glDrawArrays GL_TRIANGLES 0 6 ∈
        bodyCalls env window env.createProgramHandle env.genVertexArray 0 ∧
      ((∃ w, main env fuel = .spinning w) ∨ (∃ w, main env fuel = .exited 0 w))) := by
  constructor
  · intro e shaderType shaderSource w
    rw [createShader_eq]
    refine ⟨rfl, ?_, ?_⟩
    · intro h0
      exact ⟨_, rfl, by simp, by simp [compileHeader], by simp [createShaderCalls, h0]⟩
    · intro h0
      simp [createShaderCalls, h0]
  · obtain ⟨m, tail, -, hpos, htrace, htail⟩ := main_shape env fuel window hwin hglad
    obtain ⟨r, rfl⟩ : ∃ r, m = r + 1 := ⟨m - 1, by have := hpos hfuel; omega⟩
    refine ⟨[.glCreateProgram,
        .glAttachShader env.createProgramHandle (env.createShaderHandle GL_VERTEX_SHADER),
        .glAttachShader env.createProgramHandle (env.createShaderHandle GL_FRAGMENT_SHADER),
        .glLinkProgram env.createProgramHandle,
        .glGetProgramiv env.createProgramHandle GL_LINK_STATUS] ++
        linkReport env env.createProgramHandle,
      framesFrom env window env.createProgramHandle env.genVertexArray 1 r ++ tail, ?_, ?_, ?_, ?_,
      ?_⟩
    · rw [htrace]
      simp [loopEntry, buildCalls, framesFrom]
    · simp
    · simp [uploadCalls]
    · simp [bodyCalls, renderCalls]
    · rcases htail with ⟨h, -⟩ | ⟨h, -⟩
      · exact Or.inl h
      · exact Or.inr h

theorem createShader_reports_and_goes_on_witness :
    demoEnv.createWindow = some 1 ∧ demoEnv.gladLoad ≠ 0 ∧ 0 < 1 ∧
    demoEnv.compileStatus (demoEnv.createShaderHandle GL_FRAGMENT_SHADER) = 0 ∧
    ∃ linked later,
      (main demoEnv 1).trace = bootCalls 1 ++
        createShaderCalls demoEnv GL_VERTEX_SHADER vertexShaderSource ++
        createShaderCalls demoEnv GL_FRAGMENT_SHADER fragmentShaderSource ++
        linked ++ uploadCalls demoEnv ++
        .glfwWindowShouldClose 1 :: bodyCalls demoEnv 1 20 30 0 ++ later ∧
      Call.glLinkProgram 20 ∈ linked ∧
      Call.glBufferData GL_ARRAY_BUFFER 72 vertices GL_STATIC_DRAW ∈ uploadCalls demoEnv ∧
      Call.glDrawArrays GL_TRIANGLES 0 6 ∈ bodyCalls demoEnv 1 20 30 0 ∧
      ((∃ w, main demoEnv 1 = .spinning w) ∨ (∃ w, main demoEnv 1 = .exited 0 w)) :=
  ⟨rfl, by decide, by decide, by decide,
    (createShader_reports_and_goes_on demoEnv 1 1 rfl (by decide) (by decide)).2⟩

/-- C9: `framebuffer_size_callback`, called with any window and any integers
`width` and `height`, issues `glViewport(0, 0, width, height)` and nothing
else, and changes nothing else.  In a run of `main` past the loader the
callback is registered before the loop, and for each frame `k` that the run
completes the trace reads: a part holding `k` polls and the `k + 1` clears of
frames 0 to `k`, then the poll of frame `k`, then at once one
`glViewport(0, 0, W, H)` for each resize event `(W, H)` that poll delivers,
then the rest, which begins with the next loop test; so the viewport is set
before frame `k + 1` clears. -/
theorem resize_sets_viewport (env : Env) (fuel window : Nat)
    (hwin : env.createWindow = some window) (hglad : env.gladLoad ≠ 0) :
    (∀ (win : Nat) (width height : Int) (w : World),
      framebuffer_size_callback win width height w =
        { w with trace := w.trace ++ [.glViewport 0 0 width height] }) ∧
    (∀ (es : List Event) (c : Call), c ∈ viewportCalls es ↔
      ∃ width height, Event.framebufferSize width height ∈ es ∧
        c = .glViewport 0 0 width height) ∧
    Call.glfwSetFramebufferSizeCallback window ∈ bootCalls window ∧
    (∃ m tail, m ≤ fuel ∧ (0 < fuel → 0 < m) ∧
      (main env fuel).trace = bootCalls window ++ buildCalls env ++ uploadCalls env ++
        framesFrom env window env.createProgramHandle env.genVertexArray 0 m ++ tail ∧
      (tail = [] ∨ tail = .glfwWindowShouldClose window :: shutdownCalls env) ∧
      ∀ k, k < m → ∃ before after,
        (main env fuel).trace =
          before ++ .glfwPollEvents :: viewportCalls (env.events k) ++ after ∧
        before.countP Call.isPoll = k ∧
        before.countP Call.isClear = k + 1 ∧
        (after = [] ∨ after.head? = some (.glfwWindowShouldClose window))) := by
  refine ⟨fun _ _ _ _ => rfl, mem_viewportCalls, by simp [bootCalls], ?_⟩
  obtain ⟨m, tail, hm, hpos, htrace, htail⟩ := main_shape env fuel window hwin hglad
  have htail' : tail = [] ∨ tail = .glfwWindowShouldClose window :: shutdownCalls env := by
    rcases htail with ⟨-, h⟩ | ⟨-, h⟩
    · exact Or.inl h
    · exact Or.inr h
  refine ⟨m, tail, hm, hpos, by rw [htrace]; rfl, htail', ?_⟩
  intro k hk
  obtain ⟨r, rfl⟩ : ∃ r, m = k + (r + 1) := ⟨m - k - 1, by omega⟩
  have hentryP := countP_loopEntry Call.isPoll env window (by simp [Call.isPoll])
    (by simp [Call.isPoll]) (by simp [Call.isPoll])
  have hentryC := countP_loopEntry Call.isClear env window (by simp [Call.isClear])
    (by simp [Call.isClear]) (by simp [Call.isClear])
  have hframesP := countP_framesFrom Call.isPoll env window env.createProgramHandle
    env.genVertexArray (by simp [Call.isPoll]) (by simp [Call.isPoll])
    (by simp [Call.isPoll]) (by simp [Call.isPoll]) 0 k
  have hframesC := countP_framesFrom Call.isClear env window env.createProgramHandle
    env.genVertexArray (by simp [Call.isClear]) (by simp [Call.isClear])
    (by simp [Call.isClear]) (by simp [Call.isClear]) 0 k
  have hinP : (inputCalls env window k).countP Call.isPoll = 0 := by
    unfold inputCalls; split <;> simp [Call.isPoll]
  have hinC : (inputCalls env window k).countP Call.isClear = 0 := by
    unfold inputCalls; split <;> simp [Call.isClear]
  refine ⟨(loopEntry env window).trace ++
      framesFrom env window env.createProgramHandle env.genVertexArray 0 k ++
      (.glfwWindowShouldClose window :: inputCalls env window k ++
        [.glClearColor 0.2 0.3 0.3 1.0, .glClear GL_COLOR_BUFFER_BIT,
         .glUseProgram env.createProgramHandle, .glBindVertexArray env.genVertexArray,
         .glDrawArrays GL_TRIANGLES 0 6, .glfwSwapBuffers window]),
    framesFrom env window env.createProgramHandle env.genVertexArray (k + 1) r ++ tail,
    ?_, ?_, ?_, ?_⟩
  · rw [htrace, framesFrom_add]
    simp [framesFrom, bodyCalls, renderCalls]
  · rw [List.countP_append, List.countP_append, hentryP, hframesP]
    simp [List.countP_cons, List.countP_append, hinP, bootCalls, uploadCalls, renderCalls,
      Call.isPoll]
  · rw [List.countP_append, List.countP_append, hentryC, hframesC]
    simp [List.countP_cons, List.countP_append, hinC, bootCalls, uploadCalls, renderCalls,
      Call.isClear]
  · cases r with
    | zero =>
      rcases htail' with rfl | rfl
      · exact Or.inl (by simp [framesFrom])
      · exact Or.inr (by simp [framesFrom])
    | succ r => exact Or.inr (by simp [framesFrom])

theorem resize_sets_viewport_witness :
    demoEnv.createWindow = some 1 ∧ demoEnv.gladLoad ≠ 0 ∧
    Event.framebufferSize 640 480 ∈ demoEnv.events 0 ∧
    ∃ m tail, m ≤ 5 ∧ (0 < 5 → 0 < m) ∧
      (main demoEnv 5).trace = bootCalls 1 ++ buildCalls demoEnv ++ uploadCalls demoEnv ++
        framesFrom demoEnv 1 20 30 0 m ++ tail ∧
      (tail = [] ∨ tail = .glfwWindowShouldClose 1 :: shutdownCalls demoEnv) ∧
      ∀ k, k < m → ∃ before after,
        (main demoEnv 5).trace =
          before ++ .glfwPollEvents :: viewportCalls (demoEnv.events k) ++ after ∧
        before.countP Call.isPoll = k ∧
        before.countP Call.isClear = k + 1 ∧
        (after = [] ∨ after.head? = some (.glfwWindowShouldClose 1)) :=
  ⟨rfl, by decide, by decide, (resize_sets_viewport demoEnv 5 1 rfl (by decide)).2.2.2⟩

/-- C10: the array `vertices` has 18 floats, 72 bytes at 4 bytes each.  In a
run of `main` past the loader, with the names the driver generates for the
vertex array and the buffer different from 0, the only `glBufferData` call
passes that array with the size 72, the only `glVertexAttribPointer` call
describes attribute 0 as 3 floats per vertex at a stride of 12 bytes (3
floats) from offset 0, and every draw call is `glDrawArrays(GL_TRIANGLES, 0,
6)`; there is one draw per completed iteration, at least one once there is
fuel.  Replaying the trace on the GPU state (bindings, data stores, attribute
layout and enable flags), every one of these draws reads exactly
`expectedReads`: vertex `v` takes its coordinates from bytes `12 v`, `12 v + 4`
and `12 v + 8` of the generated buffer and finds there position `v` of the
array.  These reads are the floats of the array in order, float `i` at byte
`4 i`: every read lies inside the 72 bytes uploaded and every uploaded float
is read exactly once per draw.  The six positions are pairwise distinct. -/
theorem geometry_layout_and_draw_agree (env : Env) (fuel window : Nat)
    (hwin : env.createWindow = some window) (hglad : env.gladLoad ≠ 0)
    (hvao : env.genVertexArray ≠ 0) (hvbo : env.genBuffer ≠ 0) :
    vertices.length = 18 ∧ vertices.length * sizeofFloat = 72 ∧ 3 * sizeofFloat = 12 ∧
    (main env fuel).trace.filter Call.isBufferData =
      [.glBufferData GL_ARRAY_BUFFER 72 vertices GL_STATIC_DRAW] ∧
    (main env fuel).trace.filter Call.isAttribPointer =
      [.glVertexAttribPointer 0 3 GL_FLOAT GL_FALSE 12 0] ∧
    (∃ m, m = (main env fuel).trace.countP Call.isPoll ∧ (0 < fuel → 0 < m) ∧
      (main env fuel).trace.filter Call.isDraw =
        List.replicate m (.glDrawArrays GL_TRIANGLES 0 6) ∧
      (Gpu.start.replay (main env fuel).trace).draws =
        List.replicate m (expectedReads env.genBuffer)) ∧
    expectedReads env.genBuffer =
      (List.zip (List.range vertices.length) vertices).map
        (fun p => ⟨env.genBuffer, p.1 * sizeofFloat, some p.2⟩) ∧
    (expectedReads env.genBuffer).map (fun f => f.offset) = fetchedOffsets 3 12 0 0 6 ∧
    fetchedOffsets 3 12 0 0 6 = (List.range 18).map (fun i => i * sizeofFloat) ∧
    (∀ b ∈ fetchedOffsets 3 12 0 0 6, b + sizeofFloat ≤ vertices.length * sizeofFloat) ∧
    (fetchedOffsets 3 12 0 0 6).Nodup ∧
    positions =
      [(-0.9, -0.8, 0.0), (0.1, -0.1, 0.0), (-0.4, 0.4, 0.0),
       (0.0, 0.4, 0.0), (0.8, 0.8, 0.0), (0.4, -0.6, 0.0)] ∧
    positions.Nodup := by
  obtain ⟨m, tail, -, hpos, htrace, htail⟩ := main_shape env fuel window hwin hglad
  have htail' : tail = [] ∨ tail = .glfwWindowShouldClose window :: shutdownCalls env := by
    rcases htail with ⟨-, h⟩ | ⟨-, h⟩
    · exact Or.inl h
    · exact Or.inr h
  have hentryB := filter_loopEntry Call.isBufferData env window (by simp [Call.isBufferData])
    (by simp [Call.isBufferData]) (by simp [Call.isBufferData])
  have hentryA := filter_loopEntry Call.isAttribPointer env window
    (by simp [Call.isAttribPointer]) (by simp [Call.isAttribPointer])
    (by simp [Call.isAttribPointer])
  have hentryD := filter_loopEntry Call.isDraw env window (by simp [Call.isDraw])
    (by simp [Call.isDraw]) (by simp [Call.isDraw])
  have hentryP := countP_loopEntry Call.isPoll env window (by simp [Call.isPoll])
    (by simp [Call.isPoll]) (by simp [Call.isPoll])
  have hframesB := filter_framesFrom_nil Call.isBufferData env window env.createProgramHandle
    env.genVertexArray (by simp [Call.isBufferData]) (by simp [Call.isBufferData])
    (by simp [Call.isBufferData]) (by simp [Call.isBufferData])
    (by simp [renderCalls, Call.isBufferData]) 0 m
  have hframesA := filter_framesFrom_nil Call.isAttribPointer env window
    env.createProgramHandle env.genVertexArray (by simp [Call.isAttribPointer])
    (by simp [Call.isAttribPointer]) (by simp [Call.isAttribPointer])
    (by simp [Call.isAttribPointer]) (by simp [renderCalls, Call.isAttribPointer]) 0 m
  have hframesD := filter_framesFrom Call.isDraw env window env.createProgramHandle
    env.genVertexArray (by simp [Call.isDraw]) (by simp [Call.isDraw])
    (by simp [Call.isDraw]) (by simp [Call.isDraw]) (.glDrawArrays GL_TRIANGLES 0 6)
    (by simp [renderCalls, Call.isDraw]) 0 m
  have hframesP := countP_framesFrom Call.isPoll env window env.createProgramHandle
    env.genVertexArray (by simp [Call.isPoll]) (by simp [Call.isPoll])
    (by simp [Call.isPoll]) (by simp [Call.isPoll]) 0 m
  obtain ⟨hup, hnone⟩ := uploaded_entry env hvao hvbo
  obtain ⟨hdraws, -⟩ := replay_framesFrom env window hvao 0 m _ hup
  refine ⟨by simp [vertices], by simp [vertices, sizeofFloat], by simp [sizeofFloat], ?_, ?_,
    ⟨m, ?_, hpos, ?_, ?_⟩, ?_, ?_, by decide, by decide, by decide, ?_, ?_⟩
  · rw [htrace, List.filter_append, List.filter_append, hentryB, hframesB]
    rcases htail' with rfl | rfl <;>
      simp [bootCalls, uploadCalls, shutdownCalls, Call.isBufferData]
  · rw [htrace, List.filter_append, List.filter_append, hentryA, hframesA]
    rcases htail' with rfl | rfl <;>
      simp [bootCalls, uploadCalls, shutdownCalls, Call.isAttribPointer]
  · rw [htrace, List.countP_append, List.countP_append, hentryP, hframesP]
    rcases htail' with rfl | rfl <;>
      simp [bootCalls, uploadCalls, renderCalls, shutdownCalls, Call.isPoll]
  · rw [htrace, List.filter_append, List.filter_append, hentryD, hframesD]
    rcases htail' with rfl | rfl <;>
      simp [bootCalls, uploadCalls, shutdownCalls, Call.isDraw]
  · rw [htrace, replay_append, replay_append, replay_loopEntry,
      replay_tail_draws env window _ tail htail', hdraws, hnone]
    simp
  · simp [expectedReads, vertexAt, vertices, List.range, List.range.loop, sizeofFloat]
  · simp [expectedReads, fetchedOffsets, List.range, List.range.loop, sizeofFloat]
  · simp [positions, vertexAt, vertices, List.range, List.range.loop]
  · simp [positions, vertexAt, vertices, List.range, List.range.loop]
    norm_num

theorem geometry_layout_and_draw_agree_witness :
    demoEnv.createWindow = some 1 ∧ demoEnv.gladLoad ≠ 0 ∧
    demoEnv.genVertexArray ≠ 0 ∧ demoEnv.genBuffer ≠ 0 ∧
    (main demoEnv 5).trace.filter Call.isBufferData =
      [.glBufferData GL_ARRAY_BUFFER 72 vertices GL_STATIC_DRAW] ∧
    (main demoEnv 5).trace.filter Call.isAttribPointer =
      [.glVertexAttribPointer 0 3 GL_FLOAT GL_FALSE 12 0] ∧
    (∃ m, m = (main demoEnv 5).trace.countP Call.isPoll ∧ (0 < 5 → 0 < m) ∧
      (main demoEnv 5).trace.filter Call.isDraw =
        List.replicate m (.glDrawArrays GL_TRIANGLES 0 6) ∧
      (Gpu.start.replay (main demoEnv 5).trace).draws =
        List.replicate m (expectedReads 31)) :=
  have h := geometry_layout_and_draw_agree demoEnv 5 1 rfl (by decide) (by decide) (by decide)
  ⟨rfl, by decide, by decide, by decide, h.2.2.2.1, h.2.2.2.2.1, h.2.2.2.2.2.1⟩

end Ex51
